import Mathlib

/-!
Shallow embedding of the orchestration CLI and file server of the
sno.frntdeu1.pop.starlinkisp.net repository.

The HTTP layer (Go net/http plus the vendor Redfish service), the local
filesystem and the external processes invoked by the sequencer are modelled
as an oracle `World`: `respond` maps the index of a request (the number of
HTTP requests issued before it) and the request itself to either a response
or a transport failure (`none`); `run` maps an argv vector to the combined
output of the external process (`none` for a non-zero exit); `ctxDone`
models the cooperative cancellation signal observed by the polling loops.
Every embedded operation returns, next to its result, the list of
externally visible events it produced (HTTP requests, sleeps, process
invocations), so that theorems can speak about which requests a run issues
and in which order.  Errors are the Go error strings built with fmt.Errorf.
-/

namespace SnoHub

/-- Body of an outbound Redfish request, mirroring the request structs of
internal/idrac (SystemBoot/BootConfig, ResetRequest, VirtualMediaRequest and
the empty map sent on eject). -/
inductive ReqBody where
  | boot (target : String) (enabled : String)
  | reset (resetType : String)
  | media (image : String)
  | emptyMap
deriving DecidableEq

/-- An outbound HTTP request as assembled by Client.makeRequest. -/
structure HttpReq where
  method : String
  endpoint : String
  body : Option ReqBody
deriving DecidableEq

/-- SystemInfo as unmarshalled by the client from the system endpoint. -/
structure SystemInfo where
  manufacturer : String
  model : String
  serialNumber : String
  biosVersion : String
  powerState : String
  health : String
deriving DecidableEq

/-- VirtualMediaInfo as unmarshalled from the virtual-media endpoint. -/
structure VirtualMediaInfo where
  connectedVia : String
  image : String
  imageName : String
  inserted : Bool
  mediaTypes : List String
deriving DecidableEq

/-- A response body.  The raw bytes are kept as a string (CheckConnectivity
substring-checks them) and the results of unmarshalling into each shape are
given by the oracle (`none` models a body that fails to unmarshal). -/
structure Body where
  raw : String
  asSys : Option SystemInfo
  asMedia : Option VirtualMediaInfo
deriving DecidableEq

/-- An HTTP response delivered to the client: status code and body. -/
structure HttpResp where
  status : Nat
  body : Body
deriving DecidableEq

/-- An externally visible event of a run: an HTTP request, a sleep of a
number of seconds, or an external process invocation. -/
inductive Event where
  | req (r : HttpReq)
  | sleep (seconds : Nat)
  | cmd (argv : List String)
deriving DecidableEq

/-- The environment of a run: HTTP oracle (indexed by the number of requests
already issued), cancellation signal, filesystem and OS-operation oracles,
and external process oracle. -/
structure World where
  respond : Nat → HttpReq → Option HttpResp
  ctxDone : Nat → Bool
  fileExists : String → Bool
  removeOk : String → Bool
  mkdirOk : String → Bool
  chmodOk : String → Bool
  setenvOk : String → Bool
  run : List String → Option String

/-- Configuration values consumed by the embedded operations.  The config
package itself is not part of the sources at hand; its accessors
(GetISOFilePath, GetSSHKeyPrivatePath, ...) are represented as record
fields holding the strings they return. -/
structure Config where
  remoteUser : String
  remoteHost : String
  remotePath : String
  isoURL : String
  workDir : String
  sourceDir : String
  sshKeyPath : String
  sshKeyPrivatePath : String
  isoFilePath : String
  installerPath : String
  ocpVersion : String
  registryAuthFile : String
  idracPassword : String

/-- Endpoint of the embedded system resource. -/
def systemEndpoint : String := "/redfish/v1/Systems/System.Embedded.1"

/-- Endpoint of the ComputerSystem.Reset action. -/
def resetEndpoint : String :=
  "/redfish/v1/Systems/System.Embedded.1/Actions/ComputerSystem.Reset"

/-- Endpoint of the virtual-media CD resource. -/
def vmEndpoint : String := "/redfish/v1/Managers/iDRAC.Embedded.1/VirtualMedia/CD"

/-- Endpoint of the VirtualMedia.EjectMedia action. -/
def ejectEndpoint : String :=
  "/redfish/v1/Managers/iDRAC.Embedded.1/VirtualMedia/CD/Actions/VirtualMedia.EjectMedia"

/-- Endpoint of the VirtualMedia.InsertMedia action. -/
def insertEndpoint : String :=
  "/redfish/v1/Managers/iDRAC.Embedded.1/VirtualMedia/CD/Actions/VirtualMedia.InsertMedia"

/-- The GET request both CheckConnectivity and GetSystemInfo issue. -/
def sysGetReq : HttpReq := ⟨"GET", systemEndpoint, none⟩

/-- The PATCH request issued for one boot-target attempt. -/
def patchBootReq (target : String) : HttpReq :=
  ⟨"PATCH", systemEndpoint, some (.boot target "Once")⟩

/-- The POST request issued by a system reset with the given reset type. -/
def resetReq (resetType : String) : HttpReq :=
  ⟨"POST", resetEndpoint, some (.reset resetType)⟩

/-- The GET request issued by GetVirtualMediaInfo. -/
def vmGetReq : HttpReq := ⟨"GET", vmEndpoint, none⟩

/-- The POST request issued by EjectVirtualMedia. -/
def ejectReq : HttpReq := ⟨"POST", ejectEndpoint, some .emptyMap⟩

/-- The POST request issued by InsertVirtualMedia for the given image URL. -/
def insertReq (isoURL : String) : HttpReq := ⟨"POST", insertEndpoint, some (.media isoURL)⟩

/-- Result of an operation paired with the events it produced. -/
abbrev Run (α : Type) := Except String α × List Event

/-- Event filter: is the event an HTTP request. -/
def isReqEvent : Event → Bool
  | .req _ => true
  | _ => false

/-- Number of HTTP requests in a trace: the index of the next request. -/
def reqCount (tr : List Event) : Nat := (tr.filter isReqEvent).length

/-- The HTTP requests of a trace, in order. -/
def httpEvents (tr : List Event) : List Event := tr.filter isReqEvent

/-- Number of events of a trace satisfying a predicate. -/
def countEv (p : Event → Bool) (tr : List Event) : Nat := (tr.filter p).length

/-- Client.makeRequest: exactly one outbound request, no retries. -/
def makeRequest (w : World) (n : Nat) (r : HttpReq) : Option HttpResp × List Event :=
  (w.respond n r, [Event.req r])

/-- Whether the character list starts with the given pattern. -/
def charsStart : List Char → List Char → Bool
  | _, [] => true
  | [], _ :: _ => false
  | a :: as, b :: bs => a == b && charsStart as bs

/-- Whether the pattern occurs in the character list. -/
def charsContains : List Char → List Char → Bool
  | [], pat => pat.isEmpty
  | a :: rest, pat => charsStart (a :: rest) pat || charsContains rest pat

/-- Go strings.Contains on the strings used here. -/
def goContains (s pat : String) : Bool := charsContains s.data pat.data

/-- Split a character list at a separator character (Go strings.Split for
the one-character separators used here). -/
def splitChars (sep : Char) : List Char → List (List Char)
  | [] => [[]]
  | c :: rest =>
    let r := splitChars sep rest
    if c == sep then [] :: r
    else
      match r with
      | [] => [[c]]
      | h :: t => (c :: h) :: t

/-- Go strings.Split on a one-character separator. -/
def goSplit (s : String) (sep : Char) : List String :=
  (splitChars sep s.data).map String.mk

/-- Client.CheckConnectivity: GET the system resource, require status 200
and a body mentioning System.Embedded.1. -/
def CheckConnectivity (w : World) (n : Nat) : Run Unit :=
  let q := makeRequest w n sysGetReq
  (match q.1 with
   | none => .error "failed to make request"
   | some resp =>
     if resp.status ≠ 200 then
       .error ("iDRAC returned status code: " ++ toString resp.status)
     else if goContains resp.body.raw "System.Embedded.1" then .ok ()
     else .error "invalid response from iDRAC", q.2)

/-- Client.GetSystemInfo: GET the system resource, require status 200,
unmarshal the body into SystemInfo. -/
def GetSystemInfo (w : World) (n : Nat) : Run SystemInfo :=
  let q := makeRequest w n sysGetReq
  (match q.1 with
   | none => .error "failed to make request"
   | some resp =>
     if resp.status ≠ 200 then
       .error ("failed to get system info, status code: " ++ toString resp.status)
     else
       match resp.body.asSys with
       | none => .error "failed to unmarshal system info"
       | some info => .ok info, q.2)

/-- Client.GetSystemPowerState: GetSystemInfo and project PowerState. -/
def GetSystemPowerState (w : World) (n : Nat) : Run String :=
  let s := GetSystemInfo w n
  (match s.1 with
   | .error e => .error e
   | .ok info => .ok info.powerState, s.2)

/-- Client.GetSystemHealth: GetSystemInfo and project Health. -/
def GetSystemHealth (w : World) (n : Nat) : Run String :=
  let s := GetSystemInfo w n
  (match s.1 with
   | .error e => .error e
   | .ok info => .ok info.health, s.2)

/-- maxAttempts of the power polling loops. -/
def maxAttempts : Nat := 30

/-- The body of WaitForSystemPowerOn / WaitForSystemPowerOff: check the
cancellation signal, query the power state, succeed on the expected state,
otherwise sleep 10 seconds and retry, up to the given remaining attempts,
then fail with the given timeout message.  The two Go functions only differ
in the expected state and their message strings. -/
def waitForPowerLoop (expected timeoutMsg : String) (w : World) :
    Nat → Nat → Run Unit
  | 0, _ => (.error timeoutMsg, [])
  | fuel + 1, n =>
    if w.ctxDone n then (.error "context canceled", [])
    else
      let q := GetSystemPowerState w n
      match q.1 with
      | .ok s =>
        if s = expected then (.ok (), q.2)
        else
          let rest := waitForPowerLoop expected timeoutMsg w fuel (n + 1)
          (rest.1, q.2 ++ [Event.sleep 10] ++ rest.2)
      | .error _ =>
        let rest := waitForPowerLoop expected timeoutMsg w fuel (n + 1)
        (rest.1, q.2 ++ [Event.sleep 10] ++ rest.2)

/-- Client.WaitForSystemPowerOn: poll for PowerState "On", 30 attempts at
10-second intervals. -/
def WaitForSystemPowerOn (w : World) (n : Nat) : Run Unit :=
  waitForPowerLoop "On" "system failed to power on within expected time" w maxAttempts n

/-- Client.WaitForSystemPowerOff: poll for PowerState "Off", 30 attempts at
10-second intervals. -/
def WaitForSystemPowerOff (w : World) (n : Nat) : Run Unit :=
  waitForPowerLoop "Off" "system failed to power off within expected time" w maxAttempts n

/-- Client.PowerOnSystem: query power state; if already "On" return
success; else POST ResetType "On" (accept 200/202) and wait for power on. -/
def PowerOnSystem (w : World) (n : Nat) : Run Unit :=
  let q := GetSystemPowerState w n
  match q.1 with
  | .error e => (.error e, q.2)
  | .ok s =>
    if s = "On" then (.ok (), q.2)
    else
      let p := makeRequest w (n + reqCount q.2) (resetReq "On")
      match p.1 with
      | none => (.error "failed to make request", q.2 ++ p.2)
      | some resp =>
        if resp.status ≠ 200 ∧ resp.status ≠ 202 then
          (.error ("failed to power on system, status code: " ++ toString resp.status),
           q.2 ++ p.2)
        else
          let rest := WaitForSystemPowerOn w (n + reqCount q.2 + reqCount p.2)
          (rest.1, q.2 ++ p.2 ++ rest.2)

/-- Client.PowerOffSystem: query power state; if already "Off" return
success; else POST ResetType "ForceOff" (accept 200/202) and wait for power
off. -/
def PowerOffSystem (w : World) (n : Nat) : Run Unit :=
  let q := GetSystemPowerState w n
  match q.1 with
  | .error e => (.error e, q.2)
  | .ok s =>
    if s = "Off" then (.ok (), q.2)
    else
      let p := makeRequest w (n + reqCount q.2) (resetReq "ForceOff")
      match p.1 with
      | none => (.error "failed to make request", q.2 ++ p.2)
      | some resp =>
        if resp.status ≠ 200 ∧ resp.status ≠ 202 then
          (.error ("failed to power off system, status code: " ++ toString resp.status),
           q.2 ++ p.2)
        else
          let rest := WaitForSystemPowerOff w (n + reqCount q.2 + reqCount p.2)
          (rest.1, q.2 ++ p.2 ++ rest.2)

/-- Client.RestartSystem: POST ResetType "ForceRestart", accept 200/202. -/
def RestartSystem (w : World) (n : Nat) : Run Unit :=
  let p := makeRequest w n (resetReq "ForceRestart")
  (match p.1 with
   | none => .error "failed to make request"
   | some resp =>
     if resp.status ≠ 200 ∧ resp.status ≠ 202 then
       .error ("failed to restart system, status code: " ++ toString resp.status)
     else .ok (), p.2)

/-- Client.SetVirtualCDBoot: PATCH boot target "Cd"/"Once", accept 200. -/
def SetVirtualCDBoot (w : World) (n : Nat) : Run Unit :=
  let p := makeRequest w n (patchBootReq "Cd")
  (match p.1 with
   | none => .error "failed to make request"
   | some resp =>
     if resp.status ≠ 200 then
       .error ("failed to set boot device to Virtual CD/DVD, status code: " ++
               toString resp.status)
     else .ok (), p.2)

/-- Client.SetHDDBoot: PATCH boot target "Hdd"/"Once", accept 200. -/
def SetHDDBoot (w : World) (n : Nat) : Run Unit :=
  let p := makeRequest w n (patchBootReq "Hdd")
  (match p.1 with
   | none => .error "failed to make request"
   | some resp =>
     if resp.status ≠ 200 then
       .error ("failed to set boot device to HDD, status code: " ++ toString resp.status)
     else .ok (), p.2)

/-- Client.EjectVirtualMedia: POST the eject action (empty body), accept
200/202, then sleep 5 seconds. -/
def EjectVirtualMedia (w : World) (n : Nat) : Run Unit :=
  let p := makeRequest w n ejectReq
  match p.1 with
  | none => (.error "failed to make request", p.2)
  | some resp =>
    if resp.status ≠ 200 ∧ resp.status ≠ 202 then
      (.error ("failed to eject virtual media, status code: " ++ toString resp.status), p.2)
    else (.ok (), p.2 ++ [Event.sleep 5])

/-- Client.InsertVirtualMedia: POST the insert action with the image URL,
accept 200/202, then sleep 5 seconds. -/
def InsertVirtualMedia (w : World) (n : Nat) (isoURL : String) : Run Unit :=
  let p := makeRequest w n (insertReq isoURL)
  match p.1 with
  | none => (.error "failed to make request", p.2)
  | some resp =>
    if resp.status ≠ 200 ∧ resp.status ≠ 202 then
      (.error ("failed to insert virtual media, status code: " ++ toString resp.status), p.2)
    else (.ok (), p.2 ++ [Event.sleep 5])

/-- EnhancedClient.GetVirtualMediaInfo: GET the virtual-media resource,
require status 200, unmarshal into VirtualMediaInfo. -/
def GetVirtualMediaInfo (w : World) (n : Nat) : Run VirtualMediaInfo :=
  let q := makeRequest w n vmGetReq
  (match q.1 with
   | none => .error "failed to make request"
   | some resp =>
     if resp.status ≠ 200 then
       .error ("failed to get virtual media info, status code: " ++ toString resp.status)
     else
       match resp.body.asMedia with
       | none => .error "failed to unmarshal virtual media info"
       | some info => .ok info, q.2)

/-- The fixed priority order of boot-target values tried by
SetVirtualCDBootEnhanced. -/
def virtualCDOptions : List String := ["RemoteCd", "VirtualCd", "Cd"]

/-- The fallback loop of SetVirtualCDBootEnhanced: one PATCH per candidate;
a transport failure or a non-200 status moves on to the next candidate; a
200 ends the loop with success; an exhausted list is a fatal error. -/
def tryBootTargets (w : World) : List String → Nat → Run Unit
  | [], _ =>
    (.error "failed to set boot device to Virtual CD/DVD with any supported option", [])
  | target :: rest, n =>
    let p := makeRequest w n (patchBootReq target)
    match p.1 with
    | none =>
      let r := tryBootTargets w rest (n + 1)
      (r.1, p.2 ++ r.2)
    | some resp =>
      if resp.status = 200 then (.ok (), p.2)
      else
        let r := tryBootTargets w rest (n + 1)
        (r.1, p.2 ++ r.2)

/-- EnhancedClient.SetVirtualCDBootEnhanced: first query the virtual-media
info (outcome only logged), then try the candidate boot targets in order. -/
def SetVirtualCDBootEnhanced (w : World) (n : Nat) : Run Unit :=
  let m := GetVirtualMediaInfo w n
  let r := tryBootTargets w virtualCDOptions (n + reqCount m.2)
  (r.1, m.2 ++ r.2)

/-- EnhancedClient.ManageVirtualMediaBootProcess: eject (failure logged,
non-fatal), sleep 10; insert (failure fatal), sleep 10; set boot target
(failure fatal); restart (failure fatal). -/
def ManageVirtualMediaBootProcess (w : World) (n : Nat) (isoURL : String) : Run Unit :=
  let e1 := EjectVirtualMedia w n
  let tr1 := e1.2 ++ [Event.sleep 10]
  let e2 := InsertVirtualMedia w (n + reqCount e1.2) isoURL
  match e2.1 with
  | .error e => (.error ("failed to insert virtual media: " ++ e), tr1 ++ e2.2)
  | .ok _ =>
    let tr2 := e2.2 ++ [Event.sleep 10]
    let e3 := SetVirtualCDBootEnhanced w (n + reqCount e1.2 + reqCount e2.2)
    match e3.1 with
    | .error e =>
      (.error ("failed to set boot device to virtual CD/DVD: " ++ e), tr1 ++ tr2 ++ e3.2)
    | .ok _ =>
      let e4 := RestartSystem w (n + reqCount e1.2 + reqCount e2.2 + reqCount e3.2)
      match e4.1 with
      | .error e => (.error ("failed to restart system: " ++ e), tr1 ++ tr2 ++ e3.2 ++ e4.2)
      | .ok _ => (.ok (), tr1 ++ tr2 ++ e3.2 ++ e4.2)

/-- Go filepath.Base for the slash-separated paths used here. -/
def goBase (s : String) : String := ((goSplit s '/').getLast?).getD s

/-- ssh.Manager.generateSSHKey: one ssh-keygen invocation. -/
def generateSSHKey (w : World) (cfg : Config) : Run Unit :=
  let argv := ["ssh-keygen", "-t", "ed25519", "-f", cfg.sshKeyPrivatePath, "-N", "", "-q"]
  (match w.run argv with
   | none => .error "failed to generate SSH key"
   | some _ => .ok (), [Event.cmd argv])

/-- ssh.Manager.CheckSSHKey: generate a key pair when the private key file
is absent. -/
def CheckSSHKey (w : World) (cfg : Config) : Run Unit :=
  if w.fileExists cfg.sshKeyPrivatePath then (.ok (), [])
  else generateSSHKey w cfg

/-- ssh.Manager.SetupSSHKey: require the public key file, then one
sshpass/ssh-copy-id invocation to the remote host. -/
def SetupSSHKey (w : World) (cfg : Config) : Run Unit :=
  if ¬ w.fileExists cfg.sshKeyPath then
    (.error ("SSH public key not found: " ++ cfg.sshKeyPath), [])
  else
    let argv := ["sshpass", "-p", cfg.idracPassword, "ssh-copy-id", "-i", cfg.sshKeyPath,
                 "-o", "StrictHostKeyChecking=no", cfg.remoteUser ++ "@" ++ cfg.remoteHost]
    match w.run argv with
    | none => (.error "failed to copy SSH key", [Event.cmd argv])
    | some _ => (.ok (), [Event.cmd argv])

/-- ssh.Manager.CopyFileToRemote: require the local file, then one scp
invocation. -/
def CopyFileToRemote (w : World) (cfg : Config) (localPath remotePath : String) : Run Unit :=
  if ¬ w.fileExists localPath then
    (.error ("local file not found: " ++ localPath), [])
  else
    let argv := ["scp", "-r", localPath,
                 cfg.remoteUser ++ "@" ++ cfg.remoteHost ++ ":" ++ remotePath]
    match w.run argv with
    | none => (.error "failed to copy file", [Event.cmd argv])
    | some _ => (.ok (), [Event.cmd argv])

/-- ssh.Manager.CopyISOToRemote: if the ISO file is absent, log a warning
and return an error; otherwise scp it next to the remote path. -/
def CopyISOToRemote (w : World) (cfg : Config) (isoPath : String) : Run Unit :=
  if ¬ w.fileExists isoPath then
    (.error ("ISO file not found: " ++ isoPath), [])
  else
    CopyFileToRemote w cfg isoPath (cfg.remotePath ++ "/" ++ goBase isoPath)

/-- Go strings.Fields restricted to the single-space separators occurring
in the outputs parsed here. -/
def goFields (s : String) : List String := (goSplit s ' ').filter (fun t => t ≠ "")

/-- The line scan of openshift.Installer.getReleaseDigest: first line
containing "Pull From:" and at least three fields yields field number 2. -/
def findPullFrom : List String → Option String
  | [] => none
  | line :: rest =>
    if goContains line "Pull From:" ∧ (goFields line).length ≥ 3 then
      some ((goFields line).getD 2 "")
    else findPullFrom rest

/-- openshift.Installer.getReleaseDigest: one oc release-info invocation,
scanned for the Pull From line. -/
def getReleaseDigest (w : World) (cfg : Config) : Run String :=
  let argv := ["oc", "adm", "release", "info",
               "quay.io/openshift-release-dev/ocp-release:" ++ cfg.ocpVersion ++ "-x86_64",
               "--registry-config", cfg.registryAuthFile]
  (match w.run argv with
   | none => .error "failed to get release info"
   | some out =>
     match findPullFrom (goSplit out (Char.ofNat 10)) with
     | some digest => .ok digest
     | none => .error "could not find release digest in output", [Event.cmd argv])

/-- openshift.Installer.ExtractInstaller: require the registry auth file,
resolve the release digest, then one oc release-extract invocation. -/
def ExtractInstaller (w : World) (cfg : Config) : Run Unit :=
  if ¬ w.fileExists cfg.registryAuthFile then
    (.error ("registry auth file not found: " ++ cfg.registryAuthFile), [])
  else
    let d := getReleaseDigest w cfg
    match d.1 with
    | .error e => (.error ("failed to get release digest: " ++ e), d.2)
    | .ok digest =>
      let argv := ["oc", "adm", "release", "extract", "-a", cfg.registryAuthFile,
                   "--command=openshift-install", digest]
      match w.run argv with
      | none => (.error "failed to extract installer", d.2 ++ [Event.cmd argv])
      | some _ => (.ok (), d.2 ++ [Event.cmd argv])

/-- openshift.Installer.cleanWorkDir: remove the work directory when it
exists. -/
def cleanWorkDir (w : World) (cfg : Config) : Except String Unit :=
  if ¬ w.fileExists cfg.workDir then .ok ()
  else if w.removeOk cfg.workDir then .ok ()
  else .error "remove failed"

/-- openshift.Installer.copyOpenshiftDir: require the source openshift
directory, then one cp -r invocation. -/
def copyOpenshiftDir (w : World) (cfg : Config) : Run Unit :=
  let src := cfg.sourceDir ++ "/openshift"
  if ¬ w.fileExists src then
    (.error ("source openshift directory not found: " ++ src), [])
  else
    let argv := ["cp", "-r", src, cfg.workDir]
    match w.run argv with
    | none => (.error "failed to copy openshift directory", [Event.cmd argv])
    | some _ => (.ok (), [Event.cmd argv])

/-- The loop of openshift.Installer.copyConfigFiles: each required file
must exist at the source and is copied with cp. -/
def copyConfigFilesLoop (w : World) (cfg : Config) : List String → Run Unit
  | [] => (.ok (), [])
  | f :: rest =>
    let src := cfg.sourceDir ++ "/" ++ f
    let dst := cfg.workDir ++ "/" ++ f
    if ¬ w.fileExists src then
      (.error ("configuration file not found: " ++ src), [])
    else
      let argv := ["cp", src, dst]
      match w.run argv with
      | none => (.error ("failed to copy " ++ f), [Event.cmd argv])
      | some _ =>
        let r := copyConfigFilesLoop w cfg rest
        (r.1, Event.cmd argv :: r.2)

/-- The fixed list of required configuration files. -/
def configFiles : List String := ["agent-config.yaml", "install-config.yaml"]

/-- openshift.Installer.copyConfigFiles. -/
def copyConfigFiles (w : World) (cfg : Config) : Run Unit :=
  copyConfigFilesLoop w cfg configFiles

/-- openshift.Installer.PrepareWorkDir: clean the work directory, recreate
it, copy the openshift directory and the required configuration files. -/
def PrepareWorkDir (w : World) (cfg : Config) : Run Unit :=
  match cleanWorkDir w cfg with
  | .error e => (.error ("failed to clean work directory: " ++ e), [])
  | .ok _ =>
    if ¬ w.mkdirOk cfg.workDir then (.error "failed to create work directory: mkdir failed", [])
    else
      let c := copyOpenshiftDir w cfg
      match c.1 with
      | .error e => (.error ("failed to copy openshift directory: " ++ e), c.2)
      | .ok _ =>
        let k := copyConfigFiles w cfg
        match k.1 with
        | .error e => (.error ("failed to copy configuration files: " ++ e), c.2 ++ k.2)
        | .ok _ => (.ok (), c.2 ++ k.2)

/-- openshift.Installer.CreateAgentImage: require the installer binary,
make it executable, then one agent-create-image invocation. -/
def CreateAgentImage (w : World) (cfg : Config) : Run Unit :=
  if ¬ w.fileExists cfg.installerPath then
    (.error ("openshift-install not found: " ++ cfg.installerPath), [])
  else if ¬ w.chmodOk cfg.installerPath then
    (.error "failed to make installer executable", [])
  else
    let argv := [cfg.installerPath, "agent", "create", "image",
                 "--dir", cfg.workDir, "--log-level", "debug"]
    match w.run argv with
    | none => (.error "failed to create agent image", [Event.cmd argv])
    | some _ => (.ok (), [Event.cmd argv])

/-- openshift.Installer.WaitForInstallComplete: set KUBECONFIG, then one
agent wait-for install-complete invocation. -/
def WaitForInstallComplete (w : World) (cfg : Config) : Run Unit :=
  if ¬ w.setenvOk (cfg.workDir ++ "/auth/kubeconfig") then
    (.error "failed to set KUBECONFIG", [])
  else
    let argv := [cfg.installerPath, "agent", "wait-for", "install-complete",
                 "--dir", cfg.workDir]
    match w.run argv with
    | none => (.error "installation wait failed", [Event.cmd argv])
    | some _ => (.ok (), [Event.cmd argv])

/-- EnhancedApp.cleanup: eject the virtual media and set the boot target
back to HDD, each failure only logged; power off only when requested, its
failure also only logged; always reports success. -/
def cleanup (w : World) (n : Nat) (powerOff : Bool) : Run Unit :=
  let e := EjectVirtualMedia w n
  let h := SetHDDBoot w (n + reqCount e.2)
  let p :=
    if powerOff then (PowerOffSystem w (n + reqCount e.2 + reqCount h.2)).2
    else []
  (.ok (), e.2 ++ h.2 ++ p)

/-- EnhancedApp.monitorInstallation: query the power state once; a query
failure is logged and ignored; when the state is "On" delegate to
WaitForInstallComplete, otherwise log a warning and skip. -/
def monitorInstallation (w : World) (cfg : Config) (n : Nat) : Run Unit :=
  let q := GetSystemPowerState w n
  match q.1 with
  | .error _ => (.ok (), q.2)
  | .ok s =>
    if s = "On" then
      let r := WaitForInstallComplete w cfg
      (r.1, q.2 ++ r.2)
    else (.ok (), q.2)

/-- EnhancedApp.runInstall: the full installation sequence.  Connectivity,
SSH setup, installer extraction, workspace staging, image creation, ISO
transfer, boot-media orchestration and installation monitoring are fatal
steps; the system-info and system-health reads are only logged; the final
cleanup result is only logged. -/
def runInstall (w : World) (cfg : Config) (n : Nat) : Run Unit :=
  let s1 := CheckConnectivity w n
  match s1.1 with
  | .error e => (.error ("iDRAC connectivity check failed: " ++ e), s1.2)
  | .ok _ =>
    let n2 := n + reqCount s1.2
    let s2 := GetSystemInfo w n2
    let n3 := n2 + reqCount s2.2
    let s3 := GetSystemHealth w n3
    let n4 := n3 + reqCount s3.2
    let tr0 := s1.2 ++ s2.2 ++ s3.2
    let s4 := CheckSSHKey w cfg
    match s4.1 with
    | .error e => (.error ("failed to check SSH key: " ++ e), tr0 ++ s4.2)
    | .ok _ =>
      let s5 := SetupSSHKey w cfg
      match s5.1 with
      | .error e => (.error ("failed to setup SSH key: " ++ e), tr0 ++ s4.2 ++ s5.2)
      | .ok _ =>
        let s6 := ExtractInstaller w cfg
        match s6.1 with
        | .error e =>
          (.error ("failed to extract installer: " ++ e), tr0 ++ s4.2 ++ s5.2 ++ s6.2)
        | .ok _ =>
          let s7 := PrepareWorkDir w cfg
          match s7.1 with
          | .error e =>
            (.error ("failed to prepare work directory: " ++ e),
             tr0 ++ s4.2 ++ s5.2 ++ s6.2 ++ s7.2)
          | .ok _ =>
            let s8 := CreateAgentImage w cfg
            match s8.1 with
            | .error e =>
              (.error ("failed to create agent image: " ++ e),
               tr0 ++ s4.2 ++ s5.2 ++ s6.2 ++ s7.2 ++ s8.2)
            | .ok _ =>
              let s9 := CopyISOToRemote w cfg cfg.isoFilePath
              match s9.1 with
              | .error e =>
                (.error ("failed to copy ISO to remote: " ++ e),
                 tr0 ++ s4.2 ++ s5.2 ++ s6.2 ++ s7.2 ++ s8.2 ++ s9.2)
              | .ok _ =>
                let s10 := ManageVirtualMediaBootProcess w n4 cfg.isoURL
                let trA := tr0 ++ s4.2 ++ s5.2 ++ s6.2 ++ s7.2 ++ s8.2 ++ s9.2 ++ s10.2
                match s10.1 with
                | .error e =>
                  (.error ("failed to manage virtual media boot process: " ++ e), trA)
                | .ok _ =>
                  let s11 := monitorInstallation w cfg (n4 + reqCount s10.2)
                  match s11.1 with
                  | .error e =>
                    (.error ("failed to monitor installation: " ++ e), trA ++ s11.2)
                  | .ok _ =>
                    let s12 := cleanup w (n4 + reqCount s10.2 + reqCount s11.2) false
                    (.ok (), trA ++ s11.2 ++ s12.2)

/-! ## The go-webcache file server -/

/-- A file on disk: its content and its modification time. -/
structure FileData where
  content : String
  modTime : Nat
deriving DecidableEq

/-- A filesystem for the server: the file found at a path, if any. -/
abbrev FileSys := String → Option FileData

/-- calculateETag: open the file, hash its content, quote the hex digest,
and pair it with the modification time.  The digest function (md5 hex in
the source) is passed in as a parameter. -/
def calculateETag (hash : String → String) (fs : FileSys) (path : String) :
    Option (String × Nat) :=
  match fs path with
  | none => none
  | some f => some ("\"" ++ hash f.content ++ "\"", f.modTime)

/-- The conditional headers of an incoming request to the file server. -/
structure CacheReq where
  ifNoneMatch : String
  ifModifiedSince : Option Nat
deriving DecidableEq

/-- The response of the file server handler. -/
inductive CacheResp where
  | notModified
  | notFound
  | full (etagHeader : String) (lastModified : Nat) (content : String)
deriving DecidableEq

/-- The precondition check of http.ServeContent as exercised here: an
If-None-Match header takes precedence and yields 304 exactly on an ETag
match; otherwise an If-Modified-Since at or after the modification time
yields 304; otherwise the content is served with the prepared headers. -/
def serveContent (etag : String) (modTime : Nat) (f : FileData) (r : CacheReq) :
    CacheResp × Bool :=
  if r.ifNoneMatch ≠ "" then
    if r.ifNoneMatch = etag then (.notModified, false)
    else (.full etag modTime f.content, true)
  else
    match r.ifModifiedSince with
    | some t => if modTime ≤ t then (.notModified, false) else (.full etag modTime f.content, true)
    | none => (.full etag modTime f.content, true)

/-- The handler registered for /agent.x86_64.iso: compare a non-empty
If-None-Match against the startup ETag and answer 304 before touching the
file; otherwise open the file (404 when absent), set the ETag and
Last-Modified headers from the startup values and serve the content.  The
second component records whether the file was opened. -/
def isoHandler (etag : String) (modTime : Nat) (fs : FileSys) (inputPath : String)
    (r : CacheReq) : CacheResp × Bool :=
  if r.ifNoneMatch ≠ "" ∧ r.ifNoneMatch = etag then (.notModified, false)
  else
    match fs inputPath with
    | none => (.notFound, false)
    | some f => serveContent etag modTime f r

/-! ## Event predicates -/

/-- Event predicate: a request to the reset action. -/
def isResetReq : Event → Bool
  | .req r => r.endpoint == resetEndpoint
  | _ => false

/-- Event predicate: a PATCH of the system resource (a boot-target set). -/
def isPatchBoot : Event → Bool
  | .req r => r.method == "PATCH" && r.endpoint == systemEndpoint
  | _ => false

/-- Event predicate: a PATCH setting the boot target to Hdd (the cleanup
restore). -/
def isHddPatch : Event → Bool
  | .req r => r == patchBootReq "Hdd"
  | _ => false

/-- Event predicate: a GET of the system resource (a status/power query). -/
def isSysGet : Event → Bool
  | .req r => r == sysGetReq
  | _ => false

/-- Event predicate: a virtual-media insert request. -/
def isInsertReq : Event → Bool
  | .req r => r.endpoint == insertEndpoint
  | _ => false

/-- Event predicate: a virtual-media eject request. -/
def isEjectReq : Event → Bool
  | .req r => r.endpoint == ejectEndpoint
  | _ => false

/-- Event predicate: the agent-create-image invocation of the installer
binary (the only invoked argv whose second and third entries are "agent"
and "create"). -/
def isCreateImageCmd : Event → Bool
  | .cmd argv => argv.getD 1 "" == "agent" && argv.getD 2 "" == "create"
  | _ => false

/-- The power state a fresh query returns at request index m, when the
query succeeds. -/
def pollState (w : World) (m : Nat) : Option String :=
  match (GetSystemPowerState w m).1 with
  | .ok s => some s
  | .error _ => none

/-- Whether a boot-target PATCH at request index m for the given target
would be answered with status 200. -/
def attemptOk (w : World) (m : Nat) (target : String) : Bool :=
  match w.respond m (patchBootReq target) with
  | some resp => resp.status == 200
  | none => false

/-- Whether an insert request at request index m for the given URL would be
answered with a 200 or 202 status. -/
def insertAttemptOk (w : World) (m : Nat) (isoURL : String) : Bool :=
  match w.respond m (insertReq isoURL) with
  | some resp => resp.status == 200 || resp.status == 202
  | none => false

/-- Whether an Except value is an error. -/
def isErr {α : Type} : Except String α → Bool
  | .error _ => true
  | .ok _ => false

/-! ## Concrete test environments -/

/-- A system snapshot whose power state is On. -/
def sysInfoOn : SystemInfo :=
  ⟨"Dell Inc.", "PowerEdge R640", "ABC123456", "2.15.0", "On", "OK"⟩

/-- A system snapshot whose power state is Off. -/
def sysInfoOff : SystemInfo :=
  ⟨"Dell Inc.", "PowerEdge R640", "ABC123456", "2.15.0", "Off", "OK"⟩

/-- A virtual-media snapshot with media inserted. -/
def mediaInserted : VirtualMediaInfo :=
  ⟨"URI", "http://192.168.1.21:8080/OSs/agent.x86_64.iso", "agent.x86_64.iso", true, ["CD"]⟩

/-- A response body that parses as a powered-on system. -/
def bodyOn : Body := ⟨"System.Embedded.1", some sysInfoOn, some mediaInserted⟩

/-- A response body that parses as a powered-off system. -/
def bodyOff : Body := ⟨"System.Embedded.1", some sysInfoOff, some mediaInserted⟩

/-- A sample configuration mirroring the shipped defaults. -/
def cfgX : Config where
  remoteUser := "rock"
  remoteHost := "192.168.1.21"
  remotePath := "/apps/webcache/OSs"
  isoURL := "http://192.168.1.21:8080/OSs/agent.x86_64.iso"
  workDir := "./workdir"
  sourceDir := "./abi-master-0"
  sshKeyPath := "/home/midu/.ssh/id_ed25519.pub"
  sshKeyPrivatePath := "/home/midu/.ssh/id_ed25519"
  isoFilePath := "./workdir/agent.x86_64.iso"
  installerPath := "./openshift-install"
  ocpVersion := "4.16.45"
  registryAuthFile := "./config.json"
  idracPassword := "secret"

/-- Output of the oc release-info invocation carrying a digest line. -/
def pullFromOutput : String := "Pull From: quay.io/ocp-release@sha256:6a65"

/-- Environment in which every request succeeds and the system reports
power state On. -/
def wOn : World where
  respond := fun _ _ => some ⟨200, bodyOn⟩
  ctxDone := fun _ => false
  fileExists := fun _ => true
  removeOk := fun _ => true
  mkdirOk := fun _ => true
  chmodOk := fun _ => true
  setenvOk := fun _ => true
  run := fun _ => some pullFromOutput

/-- Environment in which every request succeeds and the system reports
power state Off. -/
def wOff : World := { wOn with respond := fun _ _ => some ⟨200, bodyOff⟩ }

/-- Environment in which the RemoteCd boot-target PATCH is rejected with
status 503 and everything else succeeds. -/
def wNoRemoteCd : World :=
  { wOn with
    respond := fun _ r =>
      if r == patchBootReq "RemoteCd" then some ⟨503, bodyOn⟩ else some ⟨200, bodyOn⟩ }

/-- Environment in which virtual-media insertion is rejected with status
500 and everything else succeeds. -/
def wInsertFails : World :=
  { wOn with
    respond := fun _ r =>
      if r.endpoint == insertEndpoint then some ⟨500, bodyOn⟩ else some ⟨200, bodyOn⟩ }

/-- Environment in which virtual-media ejection is rejected with status 500
and everything else succeeds. -/
def wEjectFails : World :=
  { wOn with
    respond := fun _ r =>
      if r.endpoint == ejectEndpoint then some ⟨500, bodyOn⟩ else some ⟨200, bodyOn⟩ }

/-- Environment like wOn in which the produced ISO file is missing. -/
def wNoIso : World := { wOn with fileExists := fun p => p != cfgX.isoFilePath }

/-- Environment like wOn in which agent-config.yaml is missing at the
source location. -/
def wNoAgentCfg : World :=
  { wOn with fileExists := fun p => p != cfgX.sourceDir ++ "/agent-config.yaml" }

/-! ## Trace bookkeeping lemmas -/

@[simp] theorem reqCount_nil : reqCount [] = 0 := rfl

@[simp] theorem reqCount_append (a b : List Event) :
    reqCount (a ++ b) = reqCount a + reqCount b := by
  simp [reqCount, List.filter_append]

@[simp] theorem reqCount_cons_req (r : HttpReq) (tr : List Event) :
    reqCount (Event.req r :: tr) = reqCount tr + 1 := by
  simp [reqCount, isReqEvent, List.filter_cons]

@[simp] theorem reqCount_cons_sleep (s : Nat) (tr : List Event) :
    reqCount (Event.sleep s :: tr) = reqCount tr := by
  simp [reqCount, isReqEvent, List.filter_cons]

@[simp] theorem reqCount_cons_cmd (c : List String) (tr : List Event) :
    reqCount (Event.cmd c :: tr) = reqCount tr := by
  simp [reqCount, isReqEvent, List.filter_cons]

@[simp] theorem countEv_nil (p : Event → Bool) : countEv p [] = 0 := rfl

@[simp] theorem countEv_append (p : Event → Bool) (a b : List Event) :
    countEv p (a ++ b) = countEv p a + countEv p b := by
  simp [countEv, List.filter_append]

theorem countEv_zero (p : Event → Bool) (tr : List Event) (h : ∀ e ∈ tr, p e = false) :
    countEv p tr = 0 := by
  simp [countEv, List.length_eq_zero, List.filter_eq_nil_iff]
  intro e he
  simp [h e he]

theorem CheckConnectivity_trace (w : World) (n : Nat) :
    (CheckConnectivity w n).2 = [Event.req sysGetReq] := rfl

theorem GetSystemInfo_trace (w : World) (n : Nat) :
    (GetSystemInfo w n).2 = [Event.req sysGetReq] := rfl

theorem GetSystemPowerState_trace (w : World) (n : Nat) :
    (GetSystemPowerState w n).2 = [Event.req sysGetReq] := rfl

theorem GetSystemHealth_trace (w : World) (n : Nat) :
    (GetSystemHealth w n).2 = [Event.req sysGetReq] := rfl

theorem GetVirtualMediaInfo_trace (w : World) (n : Nat) :
    (GetVirtualMediaInfo w n).2 = [Event.req vmGetReq] := rfl

theorem EjectVirtualMedia_trace (w : World) (n : Nat) :
    (EjectVirtualMedia w n).2 = [Event.req ejectReq]
    ∨ (EjectVirtualMedia w n).2 = [Event.req ejectReq, Event.sleep 5] := by
  unfold EjectVirtualMedia makeRequest
  cases w.respond n ejectReq with
  | none => left; rfl
  | some resp =>
    by_cases h : resp.status ≠ 200 ∧ resp.status ≠ 202
    · left; simp [h]
    · right; simp [h]

theorem EjectVirtualMedia_reqCount (w : World) (n : Nat) :
    reqCount (EjectVirtualMedia w n).2 = 1 := by
  rcases EjectVirtualMedia_trace w n with h | h <;> rw [h] <;> rfl

theorem InsertVirtualMedia_trace (w : World) (n : Nat) (u : String) :
    (InsertVirtualMedia w n u).2 = [Event.req (insertReq u)]
    ∨ (InsertVirtualMedia w n u).2 = [Event.req (insertReq u), Event.sleep 5] := by
  unfold InsertVirtualMedia makeRequest
  cases w.respond n (insertReq u) with
  | none => left; rfl
  | some resp =>
    by_cases h : resp.status ≠ 200 ∧ resp.status ≠ 202
    · left; simp [h]
    · right; simp [h]

theorem InsertVirtualMedia_reqCount (w : World) (n : Nat) (u : String) :
    reqCount (InsertVirtualMedia w n u).2 = 1 := by
  rcases InsertVirtualMedia_trace w n u with h | h <;> rw [h] <;> rfl

/-! ## Claim theorems -/

/-- Claim C5: PowerOnSystem and PowerOffSystem query the current power
state first; when it already equals the requested target state they return
success and their whole trace is that one status query, so zero reset
commands are issued. -/
theorem powerOn_powerOff_skip_when_satisfied (w w2 : World) (n m : Nat)
    (hOn : (GetSystemPowerState w n).1 = .ok "On")
    (hOff : (GetSystemPowerState w2 m).1 = .ok "Off") :
    PowerOnSystem w n = (.ok (), [Event.req sysGetReq])
    ∧ PowerOffSystem w2 m = (.ok (), [Event.req sysGetReq])
    ∧ countEv isResetReq (PowerOnSystem w n).2 = 0
    ∧ countEv isResetReq (PowerOffSystem w2 m).2 = 0 := by
  have h1 : PowerOnSystem w n = (.ok (), [Event.req sysGetReq]) := by
    simp only [PowerOnSystem, hOn, GetSystemPowerState_trace]
    simp
  have h2 : PowerOffSystem w2 m = (.ok (), [Event.req sysGetReq]) := by
    simp only [PowerOffSystem, hOff, GetSystemPowerState_trace]
    simp
  refine ⟨h1, h2, ?_, ?_⟩
  · rw [h1]; decide
  · rw [h2]; decide

/-- Witness for C5: in an environment reporting power state On (resp. Off),
power-on (resp. power-off) succeeds with a single status query. -/
theorem powerOn_powerOff_skip_when_satisfied_witness :
    PowerOnSystem wOn 0 = (.ok (), [Event.req sysGetReq])
    ∧ PowerOffSystem wOff 0 = (.ok (), [Event.req sysGetReq]) := by
  have h := powerOn_powerOff_skip_when_satisfied wOn wOff 0 0 rfl rfl
  exact ⟨h.1, h.2.1⟩

theorem tryBootTargets_nil (w : World) (n : Nat) :
    tryBootTargets w [] n =
      (.error "failed to set boot device to Virtual CD/DVD with any supported option", []) := rfl

theorem tryBootTargets_cons_fail (w : World) (t : String) (ts : List String) (n : Nat)
    (h : attemptOk w n t = false) :
    tryBootTargets w (t :: ts) n =
      ((tryBootTargets w ts (n + 1)).1,
       Event.req (patchBootReq t) :: (tryBootTargets w ts (n + 1)).2) := by
  simp only [tryBootTargets]
  cases hr : w.respond n (patchBootReq t) with
  | none => simp [makeRequest, hr]
  | some resp =>
    simp only [attemptOk, hr] at h
    have hne : resp.status ≠ 200 := by simpa using h
    simp [makeRequest, hr, hne]

theorem tryBootTargets_cons_ok (w : World) (t : String) (ts : List String) (n : Nat)
    (h : attemptOk w n t = true) :
    tryBootTargets w (t :: ts) n = (.ok (), [Event.req (patchBootReq t)]) := by
  simp only [tryBootTargets]
  cases hr : w.respond n (patchBootReq t) with
  | none => simp [attemptOk, hr] at h
  | some resp =>
    simp only [attemptOk, hr] at h
    have heq : resp.status = 200 := by simpa using h
    simp [makeRequest, hr, heq]

theorem SetVirtualCDBootEnhanced_eq (w : World) (n : Nat) :
    SetVirtualCDBootEnhanced w n =
      ((tryBootTargets w virtualCDOptions (n + 1)).1,
       Event.req vmGetReq :: (tryBootTargets w virtualCDOptions (n + 1)).2) := rfl

/-- Claim C1: SetVirtualCDBootEnhanced attempts the boot targets RemoteCd,
VirtualCd, Cd in that fixed order, one PATCH request per attempt; the first
attempt answered with status 200 ends the loop with success and no further
attempt is made; if all three attempts fail it returns the fatal error. -/
theorem setVirtualCDBootEnhanced_fallback_order (w : World) (n : Nat) :
    ((∀ i, i < 3 → attemptOk w (n + 1 + i) (virtualCDOptions.getD i "") = false) →
      (SetVirtualCDBootEnhanced w n).1 =
        .error "failed to set boot device to Virtual CD/DVD with any supported option"
      ∧ (SetVirtualCDBootEnhanced w n).2 =
          Event.req vmGetReq :: virtualCDOptions.map (fun t => Event.req (patchBootReq t)))
    ∧ (∀ k, k < 3 →
        (∀ i, i < k → attemptOk w (n + 1 + i) (virtualCDOptions.getD i "") = false) →
        attemptOk w (n + 1 + k) (virtualCDOptions.getD k "") = true →
        (SetVirtualCDBootEnhanced w n).1 = .ok ()
        ∧ (SetVirtualCDBootEnhanced w n).2 =
            Event.req vmGetReq ::
              (virtualCDOptions.take (k + 1)).map (fun t => Event.req (patchBootReq t))) := by
  constructor
  · intro h
    have h0 : attemptOk w (n + 1) "RemoteCd" = false := by
      have := h 0 (by omega); simpa [virtualCDOptions] using this
    have h1 : attemptOk w (n + 1 + 1) "VirtualCd" = false := by
      have := h 1 (by omega); simpa [virtualCDOptions] using this
    have h2 : attemptOk w (n + 1 + 1 + 1) "Cd" = false := by
      have := h 2 (by omega)
      rw [show n + 1 + 2 = n + 1 + 1 + 1 by omega] at this
      simpa [virtualCDOptions] using this
    rw [SetVirtualCDBootEnhanced_eq]
    simp only [virtualCDOptions] at h0 h1 h2 ⊢
    rw [tryBootTargets_cons_fail w _ _ _ h0, tryBootTargets_cons_fail w _ _ _ h1,
        tryBootTargets_cons_fail w _ _ _ h2, tryBootTargets_nil]
    simp
  · intro k hk hmiss hhit
    rw [SetVirtualCDBootEnhanced_eq]
    match k, hk with
    | 0, _ =>
      have h0 : attemptOk w (n + 1) "RemoteCd" = true := by
        simpa [virtualCDOptions] using hhit
      simp only [virtualCDOptions]
      rw [tryBootTargets_cons_ok w _ _ _ h0]
      simp [virtualCDOptions]
    | 1, _ =>
      have h0 : attemptOk w (n + 1) "RemoteCd" = false := by
        have := hmiss 0 (by omega); simpa [virtualCDOptions] using this
      have h1 : attemptOk w (n + 1 + 1) "VirtualCd" = true := by
        simpa [virtualCDOptions] using hhit
      simp only [virtualCDOptions]
      rw [tryBootTargets_cons_fail w _ _ _ h0, tryBootTargets_cons_ok w _ _ _ h1]
      simp [virtualCDOptions]
    | 2, _ =>
      have h0 : attemptOk w (n + 1) "RemoteCd" = false := by
        have := hmiss 0 (by omega); simpa [virtualCDOptions] using this
      have h1 : attemptOk w (n + 1 + 1) "VirtualCd" = false := by
        have := hmiss 1 (by omega); simpa [virtualCDOptions] using this
      have h2 : attemptOk w (n + 1 + 1 + 1) "Cd" = true := by
        rw [show n + 1 + 1 + 1 = n + 1 + 2 by omega]
        simpa [virtualCDOptions] using hhit
      simp only [virtualCDOptions]
      rw [tryBootTargets_cons_fail w _ _ _ h0, tryBootTargets_cons_fail w _ _ _ h1,
          tryBootTargets_cons_ok w _ _ _ h2]
      simp [virtualCDOptions]

/-- Witness for C1: when the RemoteCd attempt is answered 503 and the
VirtualCd attempt is answered 200, the enhanced boot-target setter succeeds
after exactly the first two PATCH attempts. -/
theorem setVirtualCDBootEnhanced_fallback_order_witness :
    (SetVirtualCDBootEnhanced wNoRemoteCd 0).1 = .ok ()
    ∧ (SetVirtualCDBootEnhanced wNoRemoteCd 0).2 =
        Event.req vmGetReq ::
          (virtualCDOptions.take (1 + 1)).map (fun t => Event.req (patchBootReq t)) :=
  (setVirtualCDBootEnhanced_fallback_order wNoRemoteCd 0).2 1 (by omega)
    (by decide) (by decide)

theorem InsertVirtualMedia_fail (w : World) (n : Nat) (u : String)
    (h : insertAttemptOk w n u = false) :
    isErr (InsertVirtualMedia w n u).1 = true
    ∧ (InsertVirtualMedia w n u).2 = [Event.req (insertReq u)] := by
  unfold InsertVirtualMedia makeRequest
  cases hr : w.respond n (insertReq u) with
  | none => exact ⟨rfl, rfl⟩
  | some resp =>
    simp only [insertAttemptOk, hr] at h
    have hne : resp.status ≠ 200 ∧ resp.status ≠ 202 := by
      constructor <;> intro hc <;> simp [hc] at h
    simp [hne, isErr]

/-- Claim C7: in ManageVirtualMediaBootProcess a failing eject is non-fatal
(the insert request is issued in every run, whatever the eject outcome),
while a failing insert is fatal: the process returns an error and its trace
contains no boot-target PATCH and no reset request, so neither of the later
steps is attempted. -/
theorem manageVirtualMediaBootProcess_eject_nonfatal_insert_fatal
    (w : World) (n : Nat) (isoURL : String) :
    Event.req (insertReq isoURL) ∈ (ManageVirtualMediaBootProcess w n isoURL).2
    ∧ (insertAttemptOk w (n + 1) isoURL = false →
        isErr (ManageVirtualMediaBootProcess w n isoURL).1 = true
        ∧ countEv isPatchBoot (ManageVirtualMediaBootProcess w n isoURL).2 = 0
        ∧ countEv isResetReq (ManageVirtualMediaBootProcess w n isoURL).2 = 0) := by
  constructor
  · unfold ManageVirtualMediaBootProcess
    have hmem : Event.req (insertReq isoURL)
        ∈ (InsertVirtualMedia w (n + reqCount (EjectVirtualMedia w n).2) isoURL).2 := by
      rcases InsertVirtualMedia_trace w (n + reqCount (EjectVirtualMedia w n).2) isoURL with
        h | h <;> rw [h] <;> simp
    cases h2 : (InsertVirtualMedia w (n + reqCount (EjectVirtualMedia w n).2) isoURL).1 with
    | error e => simp [h2, hmem]
    | ok _ =>
      cases h3 : (SetVirtualCDBootEnhanced w
          (n + reqCount (EjectVirtualMedia w n).2 +
           reqCount (InsertVirtualMedia w (n + reqCount (EjectVirtualMedia w n).2) isoURL).2)).1 with
      | error e => simp [h2, h3, hmem]
      | ok _ =>
        cases h4 : (RestartSystem w
            (n + reqCount (EjectVirtualMedia w n).2 +
             reqCount (InsertVirtualMedia w (n + reqCount (EjectVirtualMedia w n).2) isoURL).2 +
             reqCount (SetVirtualCDBootEnhanced w
               (n + reqCount (EjectVirtualMedia w n).2 +
                reqCount (InsertVirtualMedia w
                  (n + reqCount (EjectVirtualMedia w n).2) isoURL).2)).2)).1 with
        | error e => simp [h2, h3, h4, hmem]
        | ok _ => simp [h2, h3, h4, hmem]
  · intro hfail
    obtain ⟨hierr, htr⟩ := InsertVirtualMedia_fail w (n + 1) isoURL hfail
    unfold ManageVirtualMediaBootProcess
    dsimp only
    rw [EjectVirtualMedia_reqCount w n]
    cases h2 : (InsertVirtualMedia w (n + 1) isoURL).1 with
    | ok _ => rw [h2] at hierr; simp [isErr] at hierr
    | error e =>
      refine ⟨by simp [h2, isErr], ?_, ?_⟩ <;>
        rcases EjectVirtualMedia_trace w n with he | he <;>
          simp [h2, htr, he, countEv, List.filter, isPatchBoot, isResetReq, ejectReq,
                insertReq, ejectEndpoint, insertEndpoint, resetEndpoint, systemEndpoint]

/-- Witness for C7: with the insert request answered 500, the process
reports an error and issues no boot-target PATCH and no reset. -/
theorem manageVirtualMediaBootProcess_insert_fatal_witness :
    Event.req (insertReq "http://x/agent.iso")
      ∈ (ManageVirtualMediaBootProcess wInsertFails 0 "http://x/agent.iso").2
    ∧ isErr (ManageVirtualMediaBootProcess wInsertFails 0 "http://x/agent.iso").1 = true
    ∧ countEv isPatchBoot (ManageVirtualMediaBootProcess wInsertFails 0 "http://x/agent.iso").2 = 0
    ∧ countEv isResetReq (ManageVirtualMediaBootProcess wInsertFails 0 "http://x/agent.iso").2 = 0 := by
  have h := manageVirtualMediaBootProcess_eject_nonfatal_insert_fatal wInsertFails 0
    "http://x/agent.iso"
  exact ⟨h.1, h.2 (by decide)⟩

theorem waitLoop_miss (exp msg : String) (w : World) (fuel n : Nat)
    (hdone : w.ctxDone n = false) (hmiss : pollState w n ≠ some exp) :
    waitForPowerLoop exp msg w (fuel + 1) n =
      ((waitForPowerLoop exp msg w fuel (n + 1)).1,
       (GetSystemPowerState w n).2 ++ [Event.sleep 10] ++
         (waitForPowerLoop exp msg w fuel (n + 1)).2) := by
  simp only [waitForPowerLoop, hdone]
  cases hq : (GetSystemPowerState w n).1 with
  | error e => simp
  | ok s =>
    have hne : s ≠ exp := by
      intro hc
      exact hmiss (by simp [pollState, hq, hc])
    simp [hne]

theorem waitLoop_hit (exp msg : String) (w : World) (fuel n : Nat)
    (hdone : w.ctxDone n = false) (hhit : pollState w n = some exp) :
    waitForPowerLoop exp msg w (fuel + 1) n = (.ok (), (GetSystemPowerState w n).2) := by
  simp only [waitForPowerLoop, hdone]
  cases hq : (GetSystemPowerState w n).1 with
  | error e => simp [pollState, hq] at hhit
  | ok s =>
    have hs : s = exp := by simpa [pollState, hq] using hhit
    simp [hs]

theorem waitLoop_timeout (exp msg : String) (w : World) :
    ∀ fuel n, (∀ j, j < fuel → w.ctxDone (n + j) = false) →
      (∀ j, j < fuel → pollState w (n + j) ≠ some exp) →
      (waitForPowerLoop exp msg w fuel n).1 = .error msg
      ∧ reqCount (waitForPowerLoop exp msg w fuel n).2 = fuel := by
  intro fuel
  induction fuel with
  | zero => intro n _ _; exact ⟨rfl, rfl⟩
  | succ f ih =>
    intro n hd hm
    have hd0 : w.ctxDone n = false := by simpa using hd 0 (by omega)
    have hm0 : pollState w n ≠ some exp := by simpa using hm 0 (by omega)
    have hd' : ∀ j, j < f → w.ctxDone (n + 1 + j) = false := by
      intro j hj
      have := hd (j + 1) (by omega)
      rwa [show n + (j + 1) = n + 1 + j by omega] at this
    have hm' : ∀ j, j < f → pollState w (n + 1 + j) ≠ some exp := by
      intro j hj
      have := hm (j + 1) (by omega)
      rwa [show n + (j + 1) = n + 1 + j by omega] at this
    obtain ⟨hres, hcnt⟩ := ih (n + 1) hd' hm'
    rw [waitLoop_miss exp msg w f n hd0 hm0]
    refine ⟨hres, ?_⟩
    simp [GetSystemPowerState_trace, hcnt]

theorem waitLoop_first_hit (exp msg : String) (w : World) :
    ∀ fuel i n, i < fuel → (∀ j, j ≤ i → w.ctxDone (n + j) = false) →
      (∀ j, j < i → pollState w (n + j) ≠ some exp) →
      pollState w (n + i) = some exp →
      (waitForPowerLoop exp msg w fuel n).1 = .ok ()
      ∧ reqCount (waitForPowerLoop exp msg w fuel n).2 = i + 1 := by
  intro fuel
  induction fuel with
  | zero => intro i n hif; omega
  | succ f ih =>
    intro i n hif hd hm hh
    cases i with
    | zero =>
      have hd0 : w.ctxDone n = false := by simpa using hd 0 (by omega)
      have hh0 : pollState w n = some exp := by simpa using hh
      rw [waitLoop_hit exp msg w f n hd0 hh0]
      exact ⟨rfl, rfl⟩
    | succ i' =>
      have hd0 : w.ctxDone n = false := by simpa using hd 0 (by omega)
      have hm0 : pollState w n ≠ some exp := by simpa using hm 0 (by omega)
      have hd' : ∀ j, j ≤ i' → w.ctxDone (n + 1 + j) = false := by
        intro j hj
        have := hd (j + 1) (by omega)
        rwa [show n + (j + 1) = n + 1 + j by omega] at this
      have hm' : ∀ j, j < i' → pollState w (n + 1 + j) ≠ some exp := by
        intro j hj
        have := hm (j + 1) (by omega)
        rwa [show n + (j + 1) = n + 1 + j by omega] at this
      have hh' : pollState w (n + 1 + i') = some exp := by
        rwa [show n + (i' + 1) = n + 1 + i' by omega] at hh
      obtain ⟨hres, hcnt⟩ := ih i' (n + 1) (by omega) hd' hm' hh'
      rw [waitLoop_miss exp msg w f n hd0 hm0]
      refine ⟨hres, ?_⟩
      simp [GetSystemPowerState_trace, hcnt]

theorem waitLoop_reqCount_le (exp msg : String) (w : World) :
    ∀ fuel n, reqCount (waitForPowerLoop exp msg w fuel n).2 ≤ fuel := by
  intro fuel
  induction fuel with
  | zero => intro n; simp [waitForPowerLoop]
  | succ f ih =>
    intro n
    simp only [waitForPowerLoop]
    by_cases hd : w.ctxDone n
    · simp [hd]
    · simp only [hd, Bool.false_eq_true, if_false]
      cases hq : (GetSystemPowerState w n).1 with
      | error e =>
        simp [GetSystemPowerState_trace]
        have := ih (n + 1)
        omega
      | ok s =>
        by_cases hs : s = exp
        · simp [hs, GetSystemPowerState_trace]
        · simp [hs, GetSystemPowerState_trace]
          have := ih (n + 1)
          omega

theorem waitLoop_characterize (exp msg : String) (w : World) (fuel n : Nat)
    (hdone : ∀ j, w.ctxDone j = false) :
    (waitForPowerLoop exp msg w fuel n).1 = .error msg
      ↔ ∀ j, j < fuel → pollState w (n + j) ≠ some exp := by
  constructor
  · intro hres
    by_contra hc
    push_neg at hc
    obtain ⟨j0, hj0, hhit0⟩ := hc
    have hex : ∃ j, pollState w (n + j) = some exp := ⟨j0, hhit0⟩
    classical
    let i := Nat.find hex
    have hi : pollState w (n + i) = some exp := Nat.find_spec hex
    have hmin : ∀ j, j < i → pollState w (n + j) ≠ some exp := fun j hj =>
      Nat.find_min hex hj
    have hilt : i < fuel := by
      have : i ≤ j0 := Nat.find_min' hex hhit0
      omega
    obtain ⟨hok, _⟩ := waitLoop_first_hit exp msg w fuel i n hilt
      (fun j _ => hdone (n + j)) hmin hi
    rw [hok] at hres
    exact Except.noConfusion hres
  · intro hmiss
    exact (waitLoop_timeout exp msg w fuel n (fun j _ => hdone (n + j)) hmiss).1

/-- Claim C6: the power polling loops WaitForSystemPowerOn and
WaitForSystemPowerOff (run without cancellation) succeed at the first poll
whose queried state equals the expected state, having issued exactly that
many status queries; they never issue more than the 30 configured attempts;
and they return the timeout error exactly when all 30 polls miss the
expected state. -/
theorem waitForSystemPower_polling_bounds (w : World) (n i : Nat)
    (hdone : ∀ j, w.ctxDone j = false) :
    ((i < maxAttempts → (∀ j, j < i → pollState w (n + j) ≠ some "On") →
        pollState w (n + i) = some "On" →
        (WaitForSystemPowerOn w n).1 = .ok ()
        ∧ reqCount (WaitForSystemPowerOn w n).2 = i + 1)
      ∧ reqCount (WaitForSystemPowerOn w n).2 ≤ maxAttempts
      ∧ ((WaitForSystemPowerOn w n).1 = .error "system failed to power on within expected time"
           ↔ ∀ j, j < maxAttempts → pollState w (n + j) ≠ some "On"))
    ∧ ((i < maxAttempts → (∀ j, j < i → pollState w (n + j) ≠ some "Off") →
        pollState w (n + i) = some "Off" →
        (WaitForSystemPowerOff w n).1 = .ok ()
        ∧ reqCount (WaitForSystemPowerOff w n).2 = i + 1)
      ∧ reqCount (WaitForSystemPowerOff w n).2 ≤ maxAttempts
      ∧ ((WaitForSystemPowerOff w n).1 = .error "system failed to power off within expected time"
           ↔ ∀ j, j < maxAttempts → pollState w (n + j) ≠ some "Off")) := by
  refine ⟨⟨?_, ?_, ?_⟩, ?_, ?_, ?_⟩
  · intro hi hm hh
    exact waitLoop_first_hit _ _ w maxAttempts i n hi (fun j _ => hdone (n + j)) hm hh
  · exact waitLoop_reqCount_le _ _ w maxAttempts n
  · exact waitLoop_characterize _ _ w maxAttempts n hdone
  · intro hi hm hh
    exact waitLoop_first_hit _ _ w maxAttempts i n hi (fun j _ => hdone (n + j)) hm hh
  · exact waitLoop_reqCount_le _ _ w maxAttempts n
  · exact waitLoop_characterize _ _ w maxAttempts n hdone

/-- Witness for C6: with the system reporting On, the power-on poll ends at
the first attempt with one query; with it reporting Off forever, the
power-on poll returns the timeout error. -/
theorem waitForSystemPower_polling_bounds_witness :
    ((WaitForSystemPowerOn wOn 0).1 = .ok ()
      ∧ reqCount (WaitForSystemPowerOn wOn 0).2 = 0 + 1)
    ∧ (WaitForSystemPowerOn wOff 0).1 =
        .error "system failed to power on within expected time" := by
  constructor
  · exact ((waitForSystemPower_polling_bounds wOn 0 0 (fun _ => rfl)).1.1
      (by decide) (by intro j hj; omega) (by decide))
  · exact ((waitForSystemPower_polling_bounds wOff 0 0 (fun _ => rfl)).1.2.2).mpr
      (by decide)

theorem noSysGet_tryBootTargets (w : World) :
    ∀ ts n, ∀ e ∈ (tryBootTargets w ts n).2, isSysGet e = false := by
  intro ts
  induction ts with
  | nil => intro n e he; simp [tryBootTargets] at he
  | cons t rest ih =>
    intro n e he
    simp only [tryBootTargets, makeRequest] at he
    cases hr : w.respond n (patchBootReq t) with
    | none =>
      rw [hr] at he
      simp only [makeRequest, List.cons_append, List.nil_append, List.mem_cons] at he
      rcases he with he | he
      · rw [he]; rfl
      · exact ih (n + 1) e he
    | some resp =>
      rw [hr] at he
      dsimp only at he
      by_cases hs : resp.status = 200
      · rw [if_pos hs] at he
        simp only [List.mem_singleton] at he
        rw [he]; rfl
      · rw [if_neg hs] at he
        simp only [List.cons_append, List.nil_append, List.mem_cons] at he
        rcases he with he | he
        · rw [he]; rfl
        · exact ih (n + 1) e he

theorem noSysGet_SetVirtualCDBootEnhanced (w : World) (m : Nat) :
    ∀ e ∈ (SetVirtualCDBootEnhanced w m).2, isSysGet e = false := by
  intro e he
  rw [SetVirtualCDBootEnhanced_eq] at he
  rcases List.mem_cons.mp he with he | he
  · rw [he]; rfl
  · exact noSysGet_tryBootTargets w virtualCDOptions (m + 1) e he

theorem noSysGet_EjectVirtualMedia (w : World) (n : Nat) :
    ∀ e ∈ (EjectVirtualMedia w n).2, isSysGet e = false := by
  intro e he
  rcases EjectVirtualMedia_trace w n with h | h <;> rw [h] at he <;>
    simp only [List.mem_cons, List.mem_singleton, List.not_mem_nil, or_false] at he
  · rw [he]; rfl
  · rcases he with he | he <;> rw [he] <;> rfl

theorem noSysGet_InsertVirtualMedia (w : World) (n : Nat) (u : String) :
    ∀ e ∈ (InsertVirtualMedia w n u).2, isSysGet e = false := by
  intro e he
  rcases InsertVirtualMedia_trace w n u with h | h <;> rw [h] at he <;>
    simp only [List.mem_cons, List.mem_singleton, List.not_mem_nil, or_false] at he
  · rw [he]; rfl
  · rcases he with he | he <;> rw [he] <;> rfl

theorem noSysGet_RestartSystem (w : World) (m : Nat) :
    ∀ e ∈ (RestartSystem w m).2, isSysGet e = false := by
  intro e he
  have : (RestartSystem w m).2 = [Event.req (resetReq "ForceRestart")] := rfl
  rw [this] at he
  simp only [List.mem_singleton] at he
  rw [he]; rfl

theorem countEv_isSysGet_mvmbp (w : World) (n : Nat) (isoURL : String) :
    countEv isSysGet (ManageVirtualMediaBootProcess w n isoURL).2 = 0 := by
  apply countEv_zero
  intro e he
  unfold ManageVirtualMediaBootProcess at he
  dsimp only at he
  cases h2 : (InsertVirtualMedia w (n + reqCount (EjectVirtualMedia w n).2) isoURL).1 with
  | error e2 =>
    rw [h2] at he
    simp only [List.append_assoc, List.mem_append, List.mem_singleton] at he
    rcases he with he | he | he
    · exact noSysGet_EjectVirtualMedia w n e he
    · rw [he]; rfl
    · exact noSysGet_InsertVirtualMedia w _ isoURL e he
  | ok _ =>
    rw [h2] at he
    cases h3 : (SetVirtualCDBootEnhanced w (n + reqCount (EjectVirtualMedia w n).2 +
        reqCount (InsertVirtualMedia w (n + reqCount (EjectVirtualMedia w n).2) isoURL).2)).1 with
    | error e3 =>
      rw [h3] at he
      simp only [List.append_assoc, List.mem_append, List.mem_singleton] at he
      rcases he with he | he | he | he | he
      · exact noSysGet_EjectVirtualMedia w n e he
      · rw [he]; rfl
      · exact noSysGet_InsertVirtualMedia w _ isoURL e he
      · rw [he]; rfl
      · exact noSysGet_SetVirtualCDBootEnhanced w _ e he
    | ok _ =>
      rw [h3] at he
      cases h4 : (RestartSystem w (n + reqCount (EjectVirtualMedia w n).2 +
          reqCount (InsertVirtualMedia w (n + reqCount (EjectVirtualMedia w n).2) isoURL).2 +
          reqCount (SetVirtualCDBootEnhanced w (n + reqCount (EjectVirtualMedia w n).2 +
            reqCount (InsertVirtualMedia w
              (n + reqCount (EjectVirtualMedia w n).2) isoURL).2)).2)).1 with
      | error e4 =>
        rw [h4] at he
        simp only [List.append_assoc, List.mem_append, List.mem_singleton] at he
        rcases he with he | he | he | he | he | he
        · exact noSysGet_EjectVirtualMedia w n e he
        · rw [he]; rfl
        · exact noSysGet_InsertVirtualMedia w _ isoURL e he
        · rw [he]; rfl
        · exact noSysGet_SetVirtualCDBootEnhanced w _ e he
        · exact noSysGet_RestartSystem w _ e he
      | ok _ =>
        rw [h4] at he
        simp only [List.append_assoc, List.mem_append, List.mem_singleton] at he
        rcases he with he | he | he | he | he | he
        · exact noSysGet_EjectVirtualMedia w n e he
        · rw [he]; rfl
        · exact noSysGet_InsertVirtualMedia w _ isoURL e he
        · rw [he]; rfl
        · exact noSysGet_SetVirtualCDBootEnhanced w _ e he
        · exact noSysGet_RestartSystem w _ e he

/-- Counterexample to C2: a complete successful run of
ManageVirtualMediaBootProcess in which every request is answered 200
issues no system-status query at all, so no power polling happens after
the restart command (the claimed 30-attempt/10-unit poll for state "On"
does not occur in this sequence). -/
theorem mvmbp_no_power_poll_counterexample :
    (ManageVirtualMediaBootProcess wOn 0 cfgX.isoURL).1 = .ok ()
    ∧ countEv isSysGet (ManageVirtualMediaBootProcess wOn 0 cfgX.isoURL).2 = 0
    ∧ (ManageVirtualMediaBootProcess wOn 0 cfgX.isoURL).2.getLast? =
        some (Event.req (resetReq "ForceRestart")) := by
  refine ⟨rfl, by decide, by decide⟩

/-- Amended C2: ManageVirtualMediaBootProcess performs no power polling at
all (its trace never contains a system-status query, in particular none
after the restart command); the interval-10, 30-attempt poll accepting
"On" lives in WaitForSystemPowerOn, and the caller of the boot sequence
(monitorInstallation) instead queries the power state exactly once,
treating a non-"On" state as a non-fatal skip. -/
theorem mvmbp_no_poll_monitor_single_check (w : World) (n : Nat) (isoURL : String)
    (w2 : World) (cfg : Config) (m : Nat) (s : String)
    (hq : (GetSystemPowerState w2 m).1 = .ok s) (hs : s ≠ "On") :
    countEv isSysGet (ManageVirtualMediaBootProcess w n isoURL).2 = 0
    ∧ monitorInstallation w2 cfg m = (.ok (), [Event.req sysGetReq])
    ∧ WaitForSystemPowerOn w n =
        waitForPowerLoop "On" "system failed to power on within expected time" w maxAttempts n := by
  refine ⟨countEv_isSysGet_mvmbp w n isoURL, ?_, rfl⟩
  simp only [monitorInstallation, hq, GetSystemPowerState_trace]
  simp [hs]

/-- Witness for the amended C2: a successful boot sequence issues no power
query, and a caller seeing power state "Off" skips with a single query. -/
theorem mvmbp_no_poll_monitor_single_check_witness :
    countEv isSysGet (ManageVirtualMediaBootProcess wOn 0 cfgX.isoURL).2 = 0
    ∧ monitorInstallation wOff cfgX 0 = (.ok (), [Event.req sysGetReq]) := by
  have h := mvmbp_no_poll_monitor_single_check wOn 0 cfgX.isoURL wOff cfgX 0 "Off" rfl
    (by decide)
  exact ⟨h.1, h.2.1⟩

theorem quoted_ne_empty (s : String) : ("\"" ++ s ++ "\"") ≠ "" := by
  intro h
  have hl := congrArg String.length h
  rw [String.length_append, String.length_append] at hl
  rw [show ("\"" : String).length = 1 from rfl, show ("" : String).length = 0 from rfl] at hl
  omega

/-- Claim C9: a request whose If-None-Match header is non-empty and equal
to the server ETag (the quoted checksum of the file content computed by
calculateETag) is answered 304 Not Modified without opening the file, and
every full response carries exactly that ETag in its ETag header and the
file modification time in Last-Modified. -/
theorem isoHandler_etag_conditional (hash : String → String) (fs0 : FileSys)
    (path : String) (etag : String) (modTime : Nat)
    (hcalc : calculateETag hash fs0 path = some (etag, modTime)) :
    (∀ (fsNow : FileSys) (r : CacheReq), r.ifNoneMatch ≠ "" → r.ifNoneMatch = etag →
       isoHandler etag modTime fsNow path r = (.notModified, false))
    ∧ (∀ (fsNow : FileSys) (r : CacheReq) (e : String) (lm : Nat) (c : String) (b : Bool),
        isoHandler etag modTime fsNow path r = (.full e lm c, b) →
        e = etag ∧ lm = modTime)
    ∧ (∃ f, fs0 path = some f ∧ etag = "\"" ++ hash f.content ++ "\""
        ∧ modTime = f.modTime) := by
  refine ⟨?_, ?_, ?_⟩
  · intro fsNow r hne hmatch
    unfold isoHandler
    exact if_pos ⟨hne, hmatch⟩
  · intro fsNow r e lm c b h
    unfold isoHandler at h
    by_cases hc : r.ifNoneMatch ≠ "" ∧ r.ifNoneMatch = etag
    · rw [if_pos hc] at h
      exact absurd (congrArg Prod.fst h) (by simp)
    · rw [if_neg hc] at h
      cases hfs : fsNow path with
      | none => rw [hfs] at h; exact absurd (congrArg Prod.fst h) (by simp)
      | some f =>
        rw [hfs] at h
        dsimp only at h
        unfold serveContent at h
        by_cases h1 : r.ifNoneMatch ≠ ""
        · rw [if_pos h1] at h
          by_cases h2 : r.ifNoneMatch = etag
          · rw [if_pos h2] at h; exact absurd (congrArg Prod.fst h) (by simp)
          · rw [if_neg h2] at h
            have := congrArg Prod.fst h
            simp at this
            exact ⟨this.1.symm, this.2.1.symm⟩
        · rw [if_neg h1] at h
          cases hims : r.ifModifiedSince with
          | none =>
            rw [hims] at h
            dsimp only at h
            have := congrArg Prod.fst h
            simp at this
            exact ⟨this.1.symm, this.2.1.symm⟩
          | some t =>
            rw [hims] at h
            dsimp only at h
            by_cases h3 : modTime ≤ t
            · rw [if_pos h3] at h; exact absurd (congrArg Prod.fst h) (by simp)
            · rw [if_neg h3] at h
              have := congrArg Prod.fst h
              simp at this
              exact ⟨this.1.symm, this.2.1.symm⟩
  · unfold calculateETag at hcalc
    cases hfs : fs0 path with
    | none => rw [hfs] at hcalc; exact absurd hcalc (by simp)
    | some f =>
      rw [hfs] at hcalc
      simp only [Option.some.injEq, Prod.mk.injEq] at hcalc
      exact ⟨f, rfl, hcalc.1.symm, hcalc.2.symm⟩

/-- Witness for C9: with identity as the digest function and a file with
content "abc", a request carrying the startup ETag is answered 304 without
a file read. -/
theorem isoHandler_etag_conditional_witness :
    isoHandler "\"abc\"" 5 (fun _ => some ⟨"abc", 5⟩) "/iso" ⟨"\"abc\"", none⟩ =
      (.notModified, false) :=
  (isoHandler_etag_conditional (fun s => s) (fun _ => some ⟨"abc", 5⟩) "/iso"
    "\"abc\"" 5 rfl).1 (fun _ => some ⟨"abc", 5⟩) ⟨"\"abc\"", none⟩
    (by decide) rfl

/-- Claim C10 (implicit): the ETag and Last-Modified are computed once at
startup from the file as it then was; a request carrying that startup ETag
in If-None-Match is answered 304 with no file read against any current
filesystem, in particular also after the file content has changed. -/
theorem isoHandler_stale_etag_still_304 (hash : String → String) (fs0 : FileSys)
    (path : String) (etag : String) (modTime : Nat)
    (hcalc : calculateETag hash fs0 path = some (etag, modTime)) :
    ∀ (fsNow : FileSys) (r : CacheReq), r.ifNoneMatch = etag →
      isoHandler etag modTime fsNow path r = (.notModified, false) := by
  intro fsNow r hmatch
  have hne : etag ≠ "" := by
    unfold calculateETag at hcalc
    cases hfs : fs0 path with
    | none => rw [hfs] at hcalc; exact absurd hcalc (by simp)
    | some f =>
      rw [hfs] at hcalc
      simp only [Option.some.injEq, Prod.mk.injEq] at hcalc
      rw [← hcalc.1]
      exact quoted_ne_empty (hash f.content)
  unfold isoHandler
  refine if_pos ⟨?_, hmatch⟩
  rw [hmatch]
  exact hne

/-- Witness for C10: the startup ETag of a file with content "abc" still
draws a 304 with no file read after the content changed to "changed". -/
theorem isoHandler_stale_etag_still_304_witness :
    isoHandler "\"abc\"" 5 (fun _ => some ⟨"changed", 9⟩) "/iso" ⟨"\"abc\"", none⟩ =
      (.notModified, false) :=
  isoHandler_stale_etag_still_304 (fun s => s) (fun _ => some ⟨"abc", 5⟩) "/iso"
    "\"abc\"" 5 rfl (fun _ => some ⟨"changed", 9⟩) ⟨"\"abc\"", none⟩ rfl

/-- Claim C3, evaluated at a failing run: when the insert step of the boot
process fails (HTTP 500), runInstall returns that error immediately and its
trace contains no Hdd boot-target restore and only the single eject of the
boot process itself, so the cleanup of EnhancedApp.runInstall is never
attempted after a failed step.  The second half of the claim holds: cleanup
itself always reports success, whatever its environment, so a cleanup
failure can never change the reported outcome of a run. -/
theorem runInstall_no_cleanup_after_failure :
    (runInstall wInsertFails cfgX 0).1 =
      .error ("failed to manage virtual media boot process: " ++
        "failed to insert virtual media: failed to insert virtual media, status code: 500")
    ∧ countEv isHddPatch (runInstall wInsertFails cfgX 0).2 = 0
    ∧ countEv isEjectReq (runInstall wInsertFails cfgX 0).2 = 1
    ∧ ∀ (w : World) (n : Nat) (powerOff : Bool), (cleanup w n powerOff).1 = .ok () := by
  refine ⟨rfl, by decide, by decide, fun w n powerOff => rfl⟩

/-- Counterexample to C4: in an otherwise fully healthy environment whose
only defect is the missing ISO artifact, runInstall aborts with the
ISO-file-not-found error and never reaches the boot-media steps (no insert
request is issued; the only HTTP requests are the three initial status
reads), instead of logging a warning and continuing. -/
theorem runInstall_missing_iso_aborts_counterexample :
    (runInstall wNoIso cfgX 0).1 =
      .error "failed to copy ISO to remote: ISO file not found: ./workdir/agent.x86_64.iso"
    ∧ countEv isInsertReq (runInstall wNoIso cfgX 0).2 = 0
    ∧ httpEvents (runInstall wNoIso cfgX 0).2 =
        [Event.req sysGetReq, Event.req sysGetReq, Event.req sysGetReq] := by
  refine ⟨rfl, by decide, by decide⟩

@[simp] theorem httpEvents_nil : httpEvents [] = [] := rfl

@[simp] theorem httpEvents_append (a b : List Event) :
    httpEvents (a ++ b) = httpEvents a ++ httpEvents b := by
  simp [httpEvents, List.filter_append]

theorem httpEvents_eq_nil (tr : List Event) (h : ∀ e ∈ tr, isReqEvent e = false) :
    httpEvents tr = [] := by
  simp only [httpEvents, List.filter_eq_nil_iff]
  intro e he
  simp [h e he]

theorem noReq_generateSSHKey (w : World) (cfg : Config) :
    ∀ e ∈ (generateSSHKey w cfg).2, isReqEvent e = false := by
  intro e he
  have htr : (generateSSHKey w cfg).2 =
      [Event.cmd ["ssh-keygen", "-t", "ed25519", "-f", cfg.sshKeyPrivatePath,
                  "-N", "", "-q"]] := rfl
  rw [htr] at he
  simp only [List.mem_singleton] at he
  rw [he]; rfl

theorem noReq_CheckSSHKey (w : World) (cfg : Config) :
    ∀ e ∈ (CheckSSHKey w cfg).2, isReqEvent e = false := by
  intro e he
  unfold CheckSSHKey at he
  cases h : w.fileExists cfg.sshKeyPrivatePath with
  | true => rw [h] at he; simp at he
  | false =>
    rw [h] at he
    simp only [Bool.false_eq_true, if_false] at he
    exact noReq_generateSSHKey w cfg e he

theorem noReq_SetupSSHKey (w : World) (cfg : Config) :
    ∀ e ∈ (SetupSSHKey w cfg).2, isReqEvent e = false := by
  intro e he
  unfold SetupSSHKey at he
  by_cases h : w.fileExists cfg.sshKeyPath
  · simp only [h, not_true, if_neg, not_false_iff, if_false] at he
    cases hr : w.run ["sshpass", "-p", cfg.idracPassword, "ssh-copy-id", "-i", cfg.sshKeyPath,
        "-o", "StrictHostKeyChecking=no", cfg.remoteUser ++ "@" ++ cfg.remoteHost] with
    | none => rw [hr] at he; simp at he; rw [he]; rfl
    | some o => rw [hr] at he; simp at he; rw [he]; rfl
  · simp [h] at he

theorem noReq_getReleaseDigest (w : World) (cfg : Config) :
    ∀ e ∈ (getReleaseDigest w cfg).2, isReqEvent e = false := by
  intro e he
  have htr : (getReleaseDigest w cfg).2 =
      [Event.cmd ["oc", "adm", "release", "info",
        "quay.io/openshift-release-dev/ocp-release:" ++ cfg.ocpVersion ++ "-x86_64",
        "--registry-config", cfg.registryAuthFile]] := rfl
  rw [htr] at he
  simp only [List.mem_singleton] at he
  rw [he]; rfl

theorem noReq_ExtractInstaller (w : World) (cfg : Config) :
    ∀ e ∈ (ExtractInstaller w cfg).2, isReqEvent e = false := by
  intro e he
  unfold ExtractInstaller at he
  by_cases h : w.fileExists cfg.registryAuthFile
  · simp only [h, not_true, if_neg, not_false_iff, if_false] at he
    cases hd : (getReleaseDigest w cfg).1 with
    | error err =>
      rw [hd] at he
      exact noReq_getReleaseDigest w cfg e he
    | ok digest =>
      rw [hd] at he
      dsimp only at he
      cases hr : w.run ["oc", "adm", "release", "extract", "-a", cfg.registryAuthFile,
          "--command=openshift-install", digest] with
      | none =>
        rw [hr] at he
        simp only [List.mem_append, List.mem_singleton] at he
        rcases he with he | he
        · exact noReq_getReleaseDigest w cfg e he
        · rw [he]; rfl
      | some o =>
        rw [hr] at he
        simp only [List.mem_append, List.mem_singleton] at he
        rcases he with he | he
        · exact noReq_getReleaseDigest w cfg e he
        · rw [he]; rfl
  · simp [h] at he

theorem noReq_copyOpenshiftDir (w : World) (cfg : Config) :
    ∀ e ∈ (copyOpenshiftDir w cfg).2, isReqEvent e = false := by
  intro e he
  unfold copyOpenshiftDir at he
  by_cases h : w.fileExists (cfg.sourceDir ++ "/openshift")
  · simp only [h, not_true, if_neg, not_false_iff, if_false] at he
    cases hr : w.run ["cp", "-r", cfg.sourceDir ++ "/openshift", cfg.workDir] with
    | none => rw [hr] at he; simp at he; rw [he]; rfl
    | some o => rw [hr] at he; simp at he; rw [he]; rfl
  · simp [h] at he

theorem noReq_copyConfigFilesLoop (w : World) (cfg : Config) :
    ∀ fs, ∀ e ∈ (copyConfigFilesLoop w cfg fs).2, isReqEvent e = false := by
  intro fs
  induction fs with
  | nil => intro e he; simp [copyConfigFilesLoop] at he
  | cons f rest ih =>
    intro e he
    unfold copyConfigFilesLoop at he
    by_cases h : w.fileExists (cfg.sourceDir ++ "/" ++ f)
    · simp only [h, not_true, if_neg, not_false_iff, if_false] at he
      cases hr : w.run ["cp", cfg.sourceDir ++ "/" ++ f, cfg.workDir ++ "/" ++ f] with
      | none => rw [hr] at he; simp at he; rw [he]; rfl
      | some o =>
        rw [hr] at he
        dsimp only at he
        rcases List.mem_cons.mp he with he | he
        · rw [he]; rfl
        · exact ih e he
    · simp [h] at he

theorem noReq_PrepareWorkDir (w : World) (cfg : Config) :
    ∀ e ∈ (PrepareWorkDir w cfg).2, isReqEvent e = false := by
  intro e he
  unfold PrepareWorkDir at he
  cases hc : cleanWorkDir w cfg with
  | error err => rw [hc] at he; simp at he
  | ok _ =>
    rw [hc] at he
    dsimp only at he
    by_cases hm : w.mkdirOk cfg.workDir
    · simp only [hm, not_true, if_neg, not_false_iff, if_false] at he
      cases ho : (copyOpenshiftDir w cfg).1 with
      | error err =>
        rw [ho] at he
        exact noReq_copyOpenshiftDir w cfg e he
      | ok _ =>
        rw [ho] at he
        dsimp only at he
        cases hk : (copyConfigFiles w cfg).1 with
        | error err =>
          rw [hk] at he
          simp only [List.mem_append] at he
          rcases he with he | he
          · exact noReq_copyOpenshiftDir w cfg e he
          · exact noReq_copyConfigFilesLoop w cfg configFiles e he
        | ok _ =>
          rw [hk] at he
          simp only [List.mem_append] at he
          rcases he with he | he
          · exact noReq_copyOpenshiftDir w cfg e he
          · exact noReq_copyConfigFilesLoop w cfg configFiles e he
    · simp [hm] at he

theorem noReq_CreateAgentImage (w : World) (cfg : Config) :
    ∀ e ∈ (CreateAgentImage w cfg).2, isReqEvent e = false := by
  intro e he
  unfold CreateAgentImage at he
  by_cases h1 : w.fileExists cfg.installerPath
  · simp only [h1, not_true, if_neg, not_false_iff, if_false] at he
    by_cases h2 : w.chmodOk cfg.installerPath
    · simp only [h2, not_true, if_neg, not_false_iff, if_false] at he
      cases hr : w.run [cfg.installerPath, "agent", "create", "image",
          "--dir", cfg.workDir, "--log-level", "debug"] with
      | none => rw [hr] at he; simp at he; rw [he]; rfl
      | some o => rw [hr] at he; simp at he; rw [he]; rfl
    · simp [h2] at he
  · simp [h1] at he

/-- Amended C4: when the produced ISO artifact is missing at transfer time
(and the run reaches the transfer step), CopyISOToRemote logs a warning but
returns an error, and runInstall aborts with it: the transfer step is
fatal, not soft-fail, and none of the boot-media steps is attempted — the
only HTTP requests of the whole run are the three initial status reads. -/
theorem runInstall_missing_iso_fatal (w : World) (cfg : Config) (n : Nat)
    (h1 : (CheckConnectivity w n).1 = .ok ())
    (h4 : (CheckSSHKey w cfg).1 = .ok ())
    (h5 : (SetupSSHKey w cfg).1 = .ok ())
    (h6 : (ExtractInstaller w cfg).1 = .ok ())
    (h7 : (PrepareWorkDir w cfg).1 = .ok ())
    (h8 : (CreateAgentImage w cfg).1 = .ok ())
    (hmiss : w.fileExists cfg.isoFilePath = false) :
    (runInstall w cfg n).1 =
      .error ("failed to copy ISO to remote: " ++ ("ISO file not found: " ++ cfg.isoFilePath))
    ∧ httpEvents (runInstall w cfg n).2 =
        [Event.req sysGetReq, Event.req sysGetReq, Event.req sysGetReq] := by
  have hcopy : CopyISOToRemote w cfg cfg.isoFilePath =
      (.error ("ISO file not found: " ++ cfg.isoFilePath), []) := by
    unfold CopyISOToRemote
    simp [hmiss]
  have e4 := httpEvents_eq_nil _ (noReq_CheckSSHKey w cfg)
  have e5 := httpEvents_eq_nil _ (noReq_SetupSSHKey w cfg)
  have e6 := httpEvents_eq_nil _ (noReq_ExtractInstaller w cfg)
  have e7 := httpEvents_eq_nil _ (noReq_PrepareWorkDir w cfg)
  have e8 := httpEvents_eq_nil _ (noReq_CreateAgentImage w cfg)
  unfold runInstall
  dsimp only
  rw [h1]; dsimp only
  rw [h4]; dsimp only
  rw [h5]; dsimp only
  rw [h6]; dsimp only
  rw [h7]; dsimp only
  rw [h8]; dsimp only
  rw [hcopy]; dsimp only
  refine ⟨rfl, ?_⟩
  rw [CheckConnectivity_trace, GetSystemInfo_trace, GetSystemHealth_trace]
  simp only [httpEvents_append, e4, e5, e6, e7, e8]
  rfl

/-- Witness for the amended C4: in the concrete environment lacking only
the ISO file, the run aborts with the ISO-not-found error after exactly the
three status reads. -/
theorem runInstall_missing_iso_fatal_witness :
    (runInstall wNoIso cfgX 0).1 =
      .error ("failed to copy ISO to remote: " ++
        ("ISO file not found: " ++ cfgX.isoFilePath))
    ∧ httpEvents (runInstall wNoIso cfgX 0).2 =
        [Event.req sysGetReq, Event.req sysGetReq, Event.req sysGetReq] :=
  runInstall_missing_iso_fatal wNoIso cfgX 0 rfl rfl rfl rfl rfl rfl rfl

theorem slash_path_ne_agent (a f : String) (hf : 6 ≤ f.length) :
    ((a ++ "/" ++ f) == "agent") = false := by
  rw [beq_eq_false_iff_ne]
  intro h
  have hl := congrArg String.length h
  rw [String.length_append, String.length_append] at hl
  rw [show ("/" : String).length = 1 from rfl,
      show ("agent" : String).length = 5 from rfl] at hl
  omega

theorem noCreate_CheckSSHKey (w : World) (cfg : Config) :
    ∀ e ∈ (CheckSSHKey w cfg).2, isCreateImageCmd e = false := by
  intro e he
  unfold CheckSSHKey at he
  cases h : w.fileExists cfg.sshKeyPrivatePath with
  | true => rw [h] at he; simp at he
  | false =>
    rw [h] at he
    simp only [Bool.false_eq_true, if_false] at he
    have htr : (generateSSHKey w cfg).2 =
        [Event.cmd ["ssh-keygen", "-t", "ed25519", "-f", cfg.sshKeyPrivatePath,
                    "-N", "", "-q"]] := rfl
    rw [htr] at he
    simp only [List.mem_singleton] at he
    rw [he]; rfl

theorem noCreate_SetupSSHKey (w : World) (cfg : Config) :
    ∀ e ∈ (SetupSSHKey w cfg).2, isCreateImageCmd e = false := by
  intro e he
  unfold SetupSSHKey at he
  by_cases h : w.fileExists cfg.sshKeyPath
  · simp only [h, not_true, if_neg, not_false_iff, if_false] at he
    cases hr : w.run ["sshpass", "-p", cfg.idracPassword, "ssh-copy-id", "-i", cfg.sshKeyPath,
        "-o", "StrictHostKeyChecking=no", cfg.remoteUser ++ "@" ++ cfg.remoteHost] with
    | none => rw [hr] at he; simp at he; rw [he]; rfl
    | some o => rw [hr] at he; simp at he; rw [he]; rfl
  · simp [h] at he

theorem noCreate_getReleaseDigest (w : World) (cfg : Config) :
    ∀ e ∈ (getReleaseDigest w cfg).2, isCreateImageCmd e = false := by
  intro e he
  have htr : (getReleaseDigest w cfg).2 =
      [Event.cmd ["oc", "adm", "release", "info",
        "quay.io/openshift-release-dev/ocp-release:" ++ cfg.ocpVersion ++ "-x86_64",
        "--registry-config", cfg.registryAuthFile]] := rfl
  rw [htr] at he
  simp only [List.mem_singleton] at he
  rw [he]; rfl

theorem noCreate_ExtractInstaller (w : World) (cfg : Config) :
    ∀ e ∈ (ExtractInstaller w cfg).2, isCreateImageCmd e = false := by
  intro e he
  unfold ExtractInstaller at he
  by_cases h : w.fileExists cfg.registryAuthFile
  · simp only [h, not_true, if_neg, not_false_iff, if_false] at he
    cases hd : (getReleaseDigest w cfg).1 with
    | error err =>
      rw [hd] at he
      exact noCreate_getReleaseDigest w cfg e he
    | ok digest =>
      rw [hd] at he
      dsimp only at he
      cases hr : w.run ["oc", "adm", "release", "extract", "-a", cfg.registryAuthFile,
          "--command=openshift-install", digest] with
      | none =>
        rw [hr] at he
        simp only [List.mem_append, List.mem_singleton] at he
        rcases he with he | he
        · exact noCreate_getReleaseDigest w cfg e he
        · rw [he]; rfl
      | some o =>
        rw [hr] at he
        simp only [List.mem_append, List.mem_singleton] at he
        rcases he with he | he
        · exact noCreate_getReleaseDigest w cfg e he
        · rw [he]; rfl
  · simp [h] at he

theorem noCreate_copyOpenshiftDir (w : World) (cfg : Config) :
    ∀ e ∈ (copyOpenshiftDir w cfg).2, isCreateImageCmd e = false := by
  intro e he
  unfold copyOpenshiftDir at he
  by_cases h : w.fileExists (cfg.sourceDir ++ "/openshift")
  · simp only [h, not_true, if_neg, not_false_iff, if_false] at he
    cases hr : w.run ["cp", "-r", cfg.sourceDir ++ "/openshift", cfg.workDir] with
    | none => rw [hr] at he; simp at he; rw [he]; rfl
    | some o => rw [hr] at he; simp at he; rw [he]; rfl
  · simp [h] at he

theorem noCreate_copyConfigFilesLoop (w : World) (cfg : Config) :
    ∀ fs, (∀ f ∈ fs, 6 ≤ f.length) →
      ∀ e ∈ (copyConfigFilesLoop w cfg fs).2, isCreateImageCmd e = false := by
  intro fs
  induction fs with
  | nil => intro _ e he; simp [copyConfigFilesLoop] at he
  | cons f rest ih =>
    intro hlen e he
    have hf : 6 ≤ f.length := hlen f (by simp)
    have hcmd : isCreateImageCmd
        (Event.cmd ["cp", cfg.sourceDir ++ "/" ++ f, cfg.workDir ++ "/" ++ f]) = false := by
      simp only [isCreateImageCmd]
      rw [show (["cp", cfg.sourceDir ++ "/" ++ f, cfg.workDir ++ "/" ++ f].getD 1 "") =
            cfg.sourceDir ++ "/" ++ f from rfl]
      rw [slash_path_ne_agent cfg.sourceDir f hf]
      rfl
    unfold copyConfigFilesLoop at he
    by_cases h : w.fileExists (cfg.sourceDir ++ "/" ++ f)
    · simp only [h, not_true, if_neg, not_false_iff, if_false] at he
      cases hr : w.run ["cp", cfg.sourceDir ++ "/" ++ f, cfg.workDir ++ "/" ++ f] with
      | none =>
        rw [hr] at he
        simp only [List.mem_singleton] at he
        rw [he]; exact hcmd
      | some o =>
        rw [hr] at he
        dsimp only at he
        rcases List.mem_cons.mp he with he | he
        · rw [he]; exact hcmd
        · exact ih (fun g hg => hlen g (by simp [hg])) e he
    · simp [h] at he

theorem noCreate_3gets :
    ∀ e ∈ [Event.req sysGetReq, Event.req sysGetReq, Event.req sysGetReq],
      isCreateImageCmd e = false := by
  intro e he
  simp only [List.mem_cons, List.not_mem_nil, or_false] at he
  rcases he with he | he | he <;> rw [he] <;> rfl

/-- Claim C8: when the run reaches workspace staging and a required
configuration file (agent-config.yaml or install-config.yaml) is missing at
the source location, runInstall aborts with the configuration-file error
and the agent-create-image invocation of the external installer never
appears in the trace. -/
theorem runInstall_missing_config_aborts_before_image (w : World) (cfg : Config) (n : Nat)
    (h1 : (CheckConnectivity w n).1 = .ok ())
    (h4 : (CheckSSHKey w cfg).1 = .ok ())
    (h5 : (SetupSSHKey w cfg).1 = .ok ())
    (h6 : (ExtractInstaller w cfg).1 = .ok ())
    (hclean : cleanWorkDir w cfg = .ok ())
    (hmk : w.mkdirOk cfg.workDir = true)
    (hod : (copyOpenshiftDir w cfg).1 = .ok ()) :
    (w.fileExists (cfg.sourceDir ++ "/" ++ "agent-config.yaml") = false →
      (runInstall w cfg n).1 =
        .error ("failed to prepare work directory: " ++
          ("failed to copy configuration files: " ++
            ("configuration file not found: " ++ (cfg.sourceDir ++ "/" ++ "agent-config.yaml"))))
      ∧ countEv isCreateImageCmd (runInstall w cfg n).2 = 0)
    ∧ (w.fileExists (cfg.sourceDir ++ "/" ++ "agent-config.yaml") = true →
      (w.run ["cp", cfg.sourceDir ++ "/" ++ "agent-config.yaml",
              cfg.workDir ++ "/" ++ "agent-config.yaml"]).isSome = true →
      w.fileExists (cfg.sourceDir ++ "/" ++ "install-config.yaml") = false →
      (runInstall w cfg n).1 =
        .error ("failed to prepare work directory: " ++
          ("failed to copy configuration files: " ++
            ("configuration file not found: " ++ (cfg.sourceDir ++ "/" ++ "install-config.yaml"))))
      ∧ countEv isCreateImageCmd (runInstall w cfg n).2 = 0) := by
  constructor
  · intro hmiss
    have hloop : copyConfigFilesLoop w cfg configFiles =
        (.error ("configuration file not found: " ++
          (cfg.sourceDir ++ "/" ++ "agent-config.yaml")), []) := by
      simp only [configFiles, copyConfigFilesLoop, hmiss]
      simp
    have hprep : PrepareWorkDir w cfg =
        (.error ("failed to copy configuration files: " ++
          ("configuration file not found: " ++ (cfg.sourceDir ++ "/" ++ "agent-config.yaml"))),
         (copyOpenshiftDir w cfg).2 ++ []) := by
      unfold PrepareWorkDir
      rw [hclean]
      dsimp only
      simp only [hmk, not_true, Bool.not_true, if_false, not_false_iff, if_neg]
      rw [hod]
      dsimp only
      unfold copyConfigFiles
      rw [hloop]
    unfold runInstall
    dsimp only
    rw [h1]; dsimp only
    rw [h4]; dsimp only
    rw [h5]; dsimp only
    rw [h6]; dsimp only
    rw [hprep]; dsimp only
    refine ⟨rfl, ?_⟩
    rw [CheckConnectivity_trace, GetSystemInfo_trace, GetSystemHealth_trace]
    apply countEv_zero
    intro e he
    simp only [List.append_assoc, List.mem_append, List.append_nil, List.mem_cons,
      List.not_mem_nil, or_false] at he
    rcases he with he | he | he | he | he | he | he
    · rw [he]; rfl
    · rw [he]; rfl
    · rw [he]; rfl
    · exact noCreate_CheckSSHKey w cfg e he
    · exact noCreate_SetupSSHKey w cfg e he
    · exact noCreate_ExtractInstaller w cfg e he
    · exact noCreate_copyOpenshiftDir w cfg e he
  · intro hagent hcp hmiss
    obtain ⟨o, ho⟩ := Option.isSome_iff_exists.mp hcp
    have hloop : copyConfigFilesLoop w cfg configFiles =
        (.error ("configuration file not found: " ++
          (cfg.sourceDir ++ "/" ++ "install-config.yaml")),
         [Event.cmd ["cp", cfg.sourceDir ++ "/" ++ "agent-config.yaml",
                     cfg.workDir ++ "/" ++ "agent-config.yaml"]]) := by
      simp only [configFiles, copyConfigFilesLoop, hagent, ho, hmiss]
      simp
    have hprep : PrepareWorkDir w cfg =
        (.error ("failed to copy configuration files: " ++
          ("configuration file not found: " ++ (cfg.sourceDir ++ "/" ++ "install-config.yaml"))),
         (copyOpenshiftDir w cfg).2 ++
           [Event.cmd ["cp", cfg.sourceDir ++ "/" ++ "agent-config.yaml",
                       cfg.workDir ++ "/" ++ "agent-config.yaml"]]) := by
      unfold PrepareWorkDir
      rw [hclean]
      dsimp only
      simp only [hmk, not_true, Bool.not_true, if_false, not_false_iff, if_neg]
      rw [hod]
      dsimp only
      unfold copyConfigFiles
      rw [hloop]
    unfold runInstall
    dsimp only
    rw [h1]; dsimp only
    rw [h4]; dsimp only
    rw [h5]; dsimp only
    rw [h6]; dsimp only
    rw [hprep]; dsimp only
    refine ⟨rfl, ?_⟩
    rw [CheckConnectivity_trace, GetSystemInfo_trace, GetSystemHealth_trace]
    apply countEv_zero
    intro e he
    simp only [List.append_assoc, List.mem_append, List.mem_cons,
      List.not_mem_nil, or_false, List.mem_singleton] at he
    rcases he with he | he | he | he | he | he | he | he
    · rw [he]; rfl
    · rw [he]; rfl
    · rw [he]; rfl
    · exact noCreate_CheckSSHKey w cfg e he
    · exact noCreate_SetupSSHKey w cfg e he
    · exact noCreate_ExtractInstaller w cfg e he
    · exact noCreate_copyOpenshiftDir w cfg e he
    · rw [he]
      simp only [isCreateImageCmd]
      rw [show (["cp", cfg.sourceDir ++ "/" ++ "agent-config.yaml",
                 cfg.workDir ++ "/" ++ "agent-config.yaml"].getD 1 "") =
            cfg.sourceDir ++ "/" ++ "agent-config.yaml" from rfl]
      rw [slash_path_ne_agent cfg.sourceDir "agent-config.yaml" (by decide)]
      rfl

/-- Witness for C8: in the concrete environment lacking only
agent-config.yaml, the run aborts with the configuration error and the
create-image command never runs. -/
theorem runInstall_missing_config_aborts_before_image_witness :
    (runInstall wNoAgentCfg cfgX 0).1 =
      .error ("failed to prepare work directory: " ++
        ("failed to copy configuration files: " ++
          ("configuration file not found: " ++
            (cfgX.sourceDir ++ "/" ++ "agent-config.yaml"))))
    ∧ countEv isCreateImageCmd (runInstall wNoAgentCfg cfgX 0).2 = 0 :=
  (runInstall_missing_config_aborts_before_image wNoAgentCfg cfgX 0
    rfl rfl rfl rfl rfl rfl rfl).1 (by decide)

end SnoHub
